import Mathlib

/-!
# Authenticated tasks API

A shallow embedding of `src/server.js` (the Express application: registration,
login, the `requireAuth` gate, the project and task routes) and of
`src/database/setup.js` (the three Sequelize models and their associations).

Layout of the development:

* values and rows (`Field`, `User`, `Project`, `Task`, `Store`);
* the model layer the handlers call (`User.findOne`, `Project.create`, ...),
  following the column declarations of `setup.js`;
* requests, responses and the handlers of `server.js`, one definition per
  route handler, in source order;
* the router (`matchPath`, `runStack`, `dispatch`) and the route table `app`;
* lemmas and the theorems about the routes.

Conventions of the embedding.

* Primary keys are positive integers (`ℕ+`): the columns are declared
  `autoIncrement`, whose first value is 1.
* A body field is `undefined`, `null` or a value (`Field`): a string for the
  text columns, a boolean for `completed`, an integer for `projectId`, a
  timestamp for `dueDate` (`DateValue.ofJson` gives the column value), and
  any JSON value for `password` (`Json`), which `bcryptjs` takes only when it
  is a string.
* The `createdAt` / `updatedAt` columns are left out (wall-clock time).
* A row serialised into a response is represented by the row itself.
* The store is a deterministic state; a model-layer call fails by violating
  a declared constraint or by a query whose text SQLite cannot read (`sqlText`),
  and the handler's `catch` turns that failure into the 500 answer.
* Whether SQLite enforces the declared associations is a connection setting;
  it is the field `Store.foreignKeys`, never written by a handler, and the
  theorems hold for both of its values.
* A request path is the list of its segments (`Seg`), in the spelling of the
  route (lower case, no trailing slash); a segment is kept as the integer the
  store reads it as when it is compared with a key.
* `req.session.userId` is absent or the key of a user: `POST /api/login` is
  the only place that writes it, and it writes `user.id`.
* `bcryptjs` is a parameter (`Bcrypt`), and so is the salt a call of `hash`
  draws.
-/

namespace TaskApi

/-! ## Values -/

/-- The value of a `DATE` column: a time, as its timestamp in milliseconds, or
the invalid date that `new Date(v)` is for a `v` outside the range of a
JavaScript date (the column then holds the text `Invalid date`, and the JSON
of the row shows `null`). -/
inductive DateValue where
  | time (ms : Int)
  | invalid
deriving DecidableEq, Repr

/-- The date `new Date(v)` for a timestamp `v` of the body: a time when `v` is
at most 8.64e15 milliseconds from the epoch, the invalid date otherwise. -/
def DateValue.ofJson (v : Int) : DateValue :=
  if -8640000000000000 ≤ v ∧ v ≤ 8640000000000000 then .time v else .invalid

/-- A JSON value other than `null`: a string, a number, a boolean, or an array
or object (`composite`). -/
inductive Json where
  | str (s : String)
  | num (n : Int)
  | bool (b : Bool)
  | composite
deriving DecidableEq, Repr

/-- JavaScript truthiness of a value: the test `!x` is the negation of it. -/
class Truthy (α : Type) where
  truthy : α → Bool

instance instTruthyString : Truthy String := ⟨fun s => s != ""⟩

instance instTruthyJson : Truthy Json :=
  ⟨fun j => match j with
    | .str s => s != ""
    | .num n => n != 0
    | .bool b => b
    | .composite => true⟩

/-- Text that SQLite reads in full when it stands in the text of a query: a
NUL character ends the text of the statement, and the query is rejected. -/
def sqlText (s : String) : Bool :=
  !(s.data.any (fun c => c == Char.ofNat 0))

/-- A field obtained by destructuring `req.body`: not supplied, JSON `null`,
or a value. -/
inductive Field (α : Type) where
  | undefined
  | null
  | val (a : α)
deriving DecidableEq, Repr

/-- JavaScript truthiness of a field: `!x` is true for `undefined`, `null`
and a falsy value (the empty string, the number 0, `false`). -/
def Field.truthy {α : Type} [Truthy α] : Field α → Bool
  | .val a => Truthy.truthy a
  | _ => false

/-- The string of a field (used after the truthiness test has passed). -/
def Field.get : Field String → String
  | .val s => s
  | _ => ""

/-- The column value an `INSERT` writes for a nullable column: the declared
`defaultValue` when the field is `undefined`, `NULL` when it is `null`. -/
def Field.toColumn {α : Type} (dflt : Option α) : Field α → Option α
  | .undefined => dflt
  | .null => none
  | .val a => some a

/-- The column value after an update of a nullable column: `update` drops the
keys whose value is `undefined`, so the old value stays. -/
def Field.assign {α : Type} (old : Option α) : Field α → Option α
  | .undefined => old
  | .null => none
  | .val a => some a

/-- The `DATE` column value an `INSERT` writes. -/
def Field.toDate : Field Int → Option DateValue
  | .val v => some (DateValue.ofJson v)
  | _ => none

/-- The `DATE` column value after an update. -/
def Field.assignDate (old : Option DateValue) : Field Int → Option DateValue
  | .undefined => old
  | .null => none
  | .val v => some (DateValue.ofJson v)

/-- The column value after an update of an `allowNull: false` column (a
`null` has been rejected by validation before). -/
def Field.assignReq {α : Type} (old : α) : Field α → α
  | .val a => a
  | _ => old

/-- One segment of a request path: `num n` for text that the store reads as
the integer `n` when it compares it with an `INTEGER` key, `lit s` for any
other text. -/
inductive Seg where
  | lit (s : String)
  | num (n : Nat)
deriving DecidableEq, Repr

/-- The comparison `id = <path parameter>` of a `where` clause. -/
def Seg.isId (seg : Seg) (id : ℕ+) : Bool :=
  match seg with
  | .num n => n == (id : Nat)
  | .lit _ => false

/-- A path parameter that the store can compare with a key: a number, or
text that SQLite reads in full. -/
def Seg.queryable : Seg → Bool
  | .num _ => true
  | .lit s => sqlText s

/-! ## Rows and the store (`src/database/setup.js`) -/

/-- A row of `User`. -/
structure User where
  id : ℕ+
  username : String
  email : String
  password : String
deriving DecidableEq

/-- A row of `Project`; `description`, `status` and `dueDate` are nullable. -/
structure Project where
  id : ℕ+
  name : String
  description : Option String
  status : Option String
  dueDate : Option DateValue
  userId : ℕ+
deriving DecidableEq

/-- A row of `Task`. -/
structure Task where
  id : ℕ+
  title : String
  description : Option String
  completed : Option Bool
  priority : Option String
  dueDate : Option DateValue
  projectId : Int
deriving DecidableEq

/-- The database: the three tables in insertion order, the next value of each
auto-increment key, and the foreign-key setting of the connection. -/
structure Store where
  users : List User
  projects : List Project
  tasks : List Task
  nextUserId : ℕ+
  nextProjectId : ℕ+
  nextTaskId : ℕ+
  foreignKeys : Bool
deriving DecidableEq

/-- The database right after `db.sync({ force: true })`. -/
def Store.empty (fk : Bool) : Store :=
  { users := [], projects := [], tasks := [],
    nextUserId := 1, nextProjectId := 1, nextTaskId := 1, foreignKeys := fk }

/-- The reasons a model-layer call rejects. -/
inductive DbError where
  | validation
  | uniqueConstraint
  | foreignKeyConstraint
  | invalidWhere
  | queryRejected
deriving DecidableEq, Repr

/-! ## Model layer -/

/-- The call `User.findOne({ where: { email } })`: the e-mail stands in the
text of the query. -/
def User.findOne (s : Store) (email : String) : Except DbError (Option User) :=
  if sqlText email then .ok (s.users.find? (fun u => u.email == email))
  else .error .queryRejected

/-- The call `User.create({ username, email, password })`; `email` is declared
`unique`. -/
def User.create (s : Store) (username email password : String) :
    Except DbError (User × Store) :=
  if s.users.any (fun u => u.email == email) then .error .uniqueConstraint
  else
    let u : User := { id := s.nextUserId, username := username, email := email,
                      password := password }
    .ok (u, { s with users := s.users ++ [u], nextUserId := s.nextUserId + 1 })

/-- The call `Project.findAll({ where: { userId } })`. -/
def Project.findAll (s : Store) (userId : Option ℕ+) : Except DbError (List Project) :=
  match userId with
  | none => .error .invalidWhere
  | some u => .ok (s.projects.filter (fun p => p.userId == u))

/-- The call `Project.findOne({ where: { id, userId } })`: the path parameter
stands in the text of the query. -/
def Project.findOne (s : Store) (id : Option Seg) (userId : Option ℕ+) :
    Except DbError (Option Project) :=
  match id, userId with
  | some seg, some u =>
    if seg.queryable then
      .ok (s.projects.find? (fun p => seg.isId p.id && p.userId == u))
    else .error .queryRejected
  | _, _ => .error .invalidWhere

/-- The call `Project.create({ name, description, status, dueDate, userId })`:
`name` and `userId` are `allowNull: false`, `status` defaults to `'active'`. -/
def Project.create (s : Store) (name description status : Field String)
    (dueDate : Field Int) (userId : Option ℕ+) : Except DbError (Project × Store) :=
  match name, userId with
  | .val n, some u =>
    if s.foreignKeys && !(s.users.any (fun usr => usr.id == u)) then
      .error .foreignKeyConstraint
    else
      let p : Project :=
        { id := s.nextProjectId, name := n,
          description := description.toColumn none,
          status := status.toColumn (some "active"),
          dueDate := dueDate.toDate, userId := u }
      .ok (p, { s with projects := s.projects ++ [p],
                       nextProjectId := s.nextProjectId + 1 })
  | _, _ => .error .validation

/-- The fields `name, description, status, dueDate` written onto a row by an
update; `id` and `userId` are not among the written keys. -/
def Project.assign (p : Project) (name description status : Field String)
    (dueDate : Field Int) : Project :=
  { p with name := name.assignReq p.name,
           description := description.assign p.description,
           status := status.assign p.status,
           dueDate := dueDate.assignDate p.dueDate }

/-- The instance call `project.update({ name, description, status, dueDate })`.
Sequelize's instance `update` first drops the keys whose value is `undefined`
(`values = _.omitBy(values, value => value === undefined)`), sets the
remaining ones, validates and saves: a `null` name is rejected
(`allowNull: false`), the row with the instance's key is rewritten, and the
instance is returned with the new values. -/
def Project.update (s : Store) (p : Project) (name description status : Field String)
    (dueDate : Field Int) : Except DbError (Project × Store) :=
  match name with
  | .null => .error .validation
  | _ =>
    .ok (p.assign name description status dueDate,
         { s with projects := s.projects.map (fun r =>
             if r.id = p.id then r.assign name description status dueDate else r) })

/-- The tasks left after the projects `gone` were deleted: with foreign keys
on, a task of a deleted project is deleted with it (`onDelete: 'CASCADE'`). -/
def cascadeTasks (fk : Bool) (gone : List Project) (tasks : List Task) : List Task :=
  if fk then tasks.filter (fun t => !(gone.any (fun p => ((p.id : Nat) : Int) == t.projectId)))
  else tasks

/-- The call `Project.destroy({ where: { id } })`: the number of deleted rows
and the store afterwards. -/
def Project.destroy (s : Store) (id : Option Seg) : Except DbError (Nat × Store) :=
  match id with
  | none => .error .invalidWhere
  | some seg =>
    if seg.queryable then
      let gone := s.projects.filter (fun p => seg.isId p.id)
      .ok (gone.length,
           { s with projects := s.projects.filter (fun p => !(seg.isId p.id)),
                    tasks := cascadeTasks s.foreignKeys gone s.tasks })
    else .error .queryRejected

/-- The instance call `project.destroy()`. -/
def Project.destroyInstance (s : Store) (p : Project) : Store :=
  { s with projects := s.projects.filter (fun r => !(r.id == p.id)),
           tasks := cascadeTasks s.foreignKeys
             (s.projects.filter (fun r => r.id == p.id)) s.tasks }

/-- The call `Task.findAll()`. -/
def Task.findAll (s : Store) : List Task := s.tasks

/-- The call `Task.findByPk(id)`. -/
def Task.findByPk (s : Store) (id : Option Seg) : Except DbError (Option Task) :=
  match id with
  | none => .ok none
  | some seg =>
    if seg.queryable then .ok (s.tasks.find? (fun t => seg.isId t.id))
    else .error .queryRejected

/-- The call `Task.create({ title, description, completed, priority, dueDate,
projectId })`: `title` and `projectId` are `allowNull: false`, `completed`
defaults to `false` and `priority` to `'medium'`. -/
def Task.create (s : Store) (title description : Field String) (completed : Field Bool)
    (priority : Field String) (dueDate : Field Int) (projectId : Field Int) :
    Except DbError (Task × Store) :=
  match title, projectId with
  | .val t, .val pid =>
    if s.foreignKeys && !(s.projects.any (fun p => ((p.id : Nat) : Int) == pid)) then
      .error .foreignKeyConstraint
    else
      let row : Task :=
        { id := s.nextTaskId, title := t,
          description := description.toColumn none,
          completed := completed.toColumn (some false),
          priority := priority.toColumn (some "medium"),
          dueDate := dueDate.toDate, projectId := pid }
      .ok (row, { s with tasks := s.tasks ++ [row], nextTaskId := s.nextTaskId + 1 })
  | _, _ => .error .validation

/-- The fields written onto a task row by an update. -/
def Task.assign (t : Task) (title description : Field String) (completed : Field Bool)
    (priority : Field String) (dueDate : Field Int) (projectId : Field Int) : Task :=
  { t with title := title.assignReq t.title,
           description := description.assign t.description,
           completed := completed.assign t.completed,
           priority := priority.assign t.priority,
           dueDate := dueDate.assignDate t.dueDate,
           projectId := projectId.assignReq t.projectId }

/-- The static call `Task.update({ ... }, { where: { id } })`: the keys whose
value is `undefined` are dropped and the remaining values validated; when no
value remains the call returns `[0]` without a query; otherwise the matching
rows are rewritten (the path parameter is bound to the statement, not written
into its text), and the result is the number of matching rows and the store
afterwards. -/
def Task.update (s : Store) (title description : Field String) (completed : Field Bool)
    (priority : Field String) (dueDate : Field Int) (projectId : Field Int)
    (id : Option Seg) : Except DbError (Nat × Store) :=
  match id with
  | none => .error .invalidWhere
  | some seg =>
    if title = .null ∨ projectId = .null then .error .validation
    else if title = .undefined ∧ description = .undefined ∧ completed = .undefined ∧
        priority = .undefined ∧ dueDate = .undefined ∧ projectId = .undefined then
      .ok (0, s)
    else
      let hit := s.tasks.filter (fun t => seg.isId t.id)
      let fkBroken : Bool :=
        match projectId with
        | .val pid => s.foreignKeys && !hit.isEmpty &&
            !(s.projects.any (fun p => ((p.id : Nat) : Int) == pid))
        | _ => false
      if fkBroken then .error .foreignKeyConstraint
      else
        .ok (hit.length,
             { s with tasks := s.tasks.map (fun t =>
                 if seg.isId t.id then
                   t.assign title description completed priority dueDate projectId
                 else t) })

/-! ## Requests and responses -/

/-- The request methods the application registers routes for. -/
inductive Method where
  | GET | POST | PUT | DELETE
deriving DecidableEq, Repr

/-- The parsed JSON body `req.body`: the fields some handler reads, and the
`userId` field a client may add to it. -/
structure Body where
  username : Field String := .undefined
  email : Field String := .undefined
  password : Field Json := .undefined
  name : Field String := .undefined
  title : Field String := .undefined
  description : Field String := .undefined
  status : Field String := .undefined
  priority : Field String := .undefined
  completed : Field Bool := .undefined
  dueDate : Field Int := .undefined
  projectId : Field Int := .undefined
  userId : Field Int := .undefined
deriving DecidableEq

/-- The record `req.session`: `userId` is `none` when the client has no
session, when its session has expired, and when it never logged in. -/
structure Session where
  userId : Option ℕ+
deriving DecidableEq

/-- The request object `req`: `params_id` is `req.params.id` (written by the
router), `userId` is `req.userId` (written by `requireAuth`). -/
structure Request where
  method : Method
  path : List Seg
  body : Body := {}
  session : Session
  params_id : Option Seg := none
  userId : Option ℕ+ := none
deriving DecidableEq

/-- A JSON response body. -/
inductive Payload where
  | error (msg : String)
  | message (msg : String)
  | registered (message : String) (userId : ℕ+)
  | project (p : Project)
  | projects (ps : List Project)
  | task (t : Task)
  | tasks (ts : List Task)
  | null
  | notRouted
deriving DecidableEq

/-- A response: status code and body. -/
structure Response where
  status : Nat
  body : Payload
deriving DecidableEq

/-- What a middleware or handler does with a request: it sends a response
(leaving a store and a session record), or it calls `next()` once, handing on
the request object. -/
inductive Outcome where
  | respond (res : Response) (store : Store) (session : Session)
  | next (req : Request) (store : Store)
deriving DecidableEq

/-- A middleware or route handler. -/
abbrev Middleware := Request → Store → Outcome

/-- The library `bcryptjs` on strings: `hash password cost salt` and
`compare password hash`. The salt is the randomness `hash` draws. Called with
a password that is not a string, both functions reject, which the handlers
below treat before they call them. -/
structure Bcrypt where
  hash : String → Nat → Nat → String
  compare : String → String → Bool

/-! ## Handlers (`src/server.js`) -/

/-- Handler of `POST /api/register`. The last two branches are the `catch`:
`bcrypt.hash` rejects a password that is not a string, and the lookup rejects
an e-mail the query cannot hold. -/
def postRegister (bc : Bcrypt) (salt : Nat) : Middleware := fun req s =>
  if !req.body.username.truthy || !req.body.email.truthy || !req.body.password.truthy then
    .respond ⟨400, .error "All fields are required"⟩ s req.session
  else
    match User.findOne s req.body.email.get with
    | .ok (some _) => .respond ⟨400, .error "Email is already registered"⟩ s req.session
    | .ok none =>
      match req.body.password with
      | .val (.str password) =>
        let hashedPassword := bc.hash password 10 salt
        match User.create s req.body.username.get req.body.email.get hashedPassword with
        | .ok (newUser, s') =>
          .respond ⟨201, .registered "User registered successfully" newUser.id⟩ s'
            req.session
        | .error _ => .respond ⟨500, .error "Failed to register user"⟩ s req.session
      | _ => .respond ⟨500, .error "Failed to register user"⟩ s req.session
    | .error _ => .respond ⟨500, .error "Failed to register user"⟩ s req.session

/-- Handler of `POST /api/login`. The last two branches are the `catch`:
`bcrypt.compare` rejects a password that is not a string, and the lookup
rejects an e-mail the query cannot hold. -/
def postLogin (bc : Bcrypt) : Middleware := fun req s =>
  if !req.body.email.truthy || !req.body.password.truthy then
    .respond ⟨400, .error "Email and password are required"⟩ s req.session
  else
    match User.findOne s req.body.email.get with
    | .ok none => .respond ⟨401, .error "Invalid email or password"⟩ s req.session
    | .ok (some user) =>
      match req.body.password with
      | .val (.str password) =>
        if !bc.compare password user.password then
          .respond ⟨401, .error "Invalid email or password"⟩ s req.session
        else
          .respond ⟨200, .message "Login successful"⟩ s
            { req.session with userId := some user.id }
      | _ => .respond ⟨500, .error "Failed to log in"⟩ s req.session
    | .error _ => .respond ⟨500, .error "Failed to log in"⟩ s req.session

/-- The middleware `requireAuth`. -/
def requireAuth : Middleware := fun req s =>
  match req.session.userId with
  | none =>
    .respond ⟨401, .error "You must be logged in to access this resource"⟩ s req.session
  | some uid => .next { req with userId := some uid } s

/-- Handler of `GET /api/projects`. -/
def getProjects : Middleware := fun req s =>
  match Project.findAll s req.userId with
  | .ok projects => .respond ⟨200, .projects projects⟩ s req.session
  | .error _ => .respond ⟨500, .error "Failed to fetch projects"⟩ s req.session

/-- Handler of `GET /api/projects/:id`. -/
def getProjectById : Middleware := fun req s =>
  match Project.findOne s req.params_id req.userId with
  | .ok none => .respond ⟨404, .error "Project not found or access denied"⟩ s req.session
  | .ok (some project) => .respond ⟨200, .project project⟩ s req.session
  | .error _ => .respond ⟨500, .error "Failed to fetch project"⟩ s req.session

/-- Handler of `POST /api/projects`. -/
def postProjects : Middleware := fun req s =>
  match Project.create s req.body.name req.body.description req.body.status
      req.body.dueDate req.userId with
  | .ok (newProject, s') => .respond ⟨201, .project newProject⟩ s' req.session
  | .error _ => .respond ⟨500, .error "Failed to create project"⟩ s req.session

/-- Handler of `PUT /api/projects/:id`. -/
def putProject : Middleware := fun req s =>
  match Project.findOne s req.params_id req.userId with
  | .ok none => .respond ⟨404, .error "Project not found or access denied"⟩ s req.session
  | .ok (some project) =>
    match Project.update s project req.body.name req.body.description req.body.status
        req.body.dueDate with
    | .ok (project', s') => .respond ⟨200, .project project'⟩ s' req.session
    | .error _ => .respond ⟨500, .error "Failed to update project"⟩ s req.session
  | .error _ => .respond ⟨500, .error "Failed to update project"⟩ s req.session

/-- Handler of `DELETE /api/projects/:id` registered first (line 209): it
matches the row by `id` alone. -/
def deleteProject : Middleware := fun req s =>
  match Project.destroy s req.params_id with
  | .ok (deletedRowsCount, s') =>
    if deletedRowsCount = 0 then
      .respond ⟨404, .error "Project not found"⟩ s' req.session
    else .respond ⟨200, .message "Project deleted successfully"⟩ s' req.session
  | .error _ => .respond ⟨500, .error "Failed to delete project"⟩ s req.session

/-- Handler of `GET /api/tasks`. -/
def getTasks : Middleware := fun req s =>
  .respond ⟨200, .tasks (Task.findAll s)⟩ s req.session

/-- Handler of `GET /api/tasks/:id`. -/
def getTaskById : Middleware := fun req s =>
  match Task.findByPk s req.params_id with
  | .ok none => .respond ⟨404, .error "Task not found"⟩ s req.session
  | .ok (some task) => .respond ⟨200, .task task⟩ s req.session
  | .error _ => .respond ⟨500, .error "Failed to fetch task"⟩ s req.session

/-- Handler of `POST /api/tasks`. -/
def postTasks : Middleware := fun req s =>
  match Task.create s req.body.title req.body.description req.body.completed
      req.body.priority req.body.dueDate req.body.projectId with
  | .ok (newTask, s') => .respond ⟨201, .task newTask⟩ s' req.session
  | .error _ => .respond ⟨500, .error "Failed to create task"⟩ s req.session

/-- Handler of `PUT /api/tasks/:id`. -/
def putTask : Middleware := fun req s =>
  match Task.update s req.body.title req.body.description req.body.completed
      req.body.priority req.body.dueDate req.body.projectId req.params_id with
  | .ok (updatedRowsCount, s') =>
    if updatedRowsCount = 0 then
      .respond ⟨404, .error "Task not found"⟩ s' req.session
    else
      match Task.findByPk s' req.params_id with
      | .ok (some updatedTask) => .respond ⟨200, .task updatedTask⟩ s' req.session
      | .ok none => .respond ⟨200, .null⟩ s' req.session
      | .error _ => .respond ⟨500, .error "Failed to update task"⟩ s' req.session
  | .error _ => .respond ⟨500, .error "Failed to update task"⟩ s req.session

/-- Handler of `DELETE /api/projects/:id` registered second (line 299), behind
`requireAuth`: it matches the row by `id` and owner. -/
def deleteProjectScoped : Middleware := fun req s =>
  match Project.findOne s req.params_id req.userId with
  | .ok none => .respond ⟨404, .error "Project not found or access denied"⟩ s req.session
  | .ok (some project) =>
    .respond ⟨200, .message "Project deleted successfully"⟩
      (Project.destroyInstance s project) req.session
  | .error _ => .respond ⟨500, .error "Failed to delete project"⟩ s req.session

/-! ## Router -/

/-- One segment of a route path: literal text, or the parameter `:id`. -/
inductive Pat where
  | lit (s : String)
  | id
deriving DecidableEq, Repr

/-- A registered route: method, path and the handlers given to
`app.get` / `app.post` / `app.put` / `app.delete`, in order. -/
structure Route where
  method : Method
  path : List Pat
  stack : List Middleware

/-- Matching of a request path against a route path; on a match the result
holds the segment bound to `:id`, if the route has one. -/
def matchPath : List Pat → List Seg → Option (Option Seg)
  | [], [] => some none
  | .lit a :: ps, .lit b :: segs => if a = b then matchPath ps segs else none
  | .id :: ps, seg :: segs => (matchPath ps segs).map (fun _ => some seg)
  | _, _ => none

/-- The handlers of one route run in order: each runs only when the one
before it called `next()`. -/
def runStack : List Middleware → Request → Store → Outcome
  | [], req, s => .next req s
  | m :: ms, req, s =>
    match m req s with
    | .respond res s' sess => .respond res s' sess
    | .next req' s' => runStack ms req' s'

/-- The router: routes are tried in registration order; a matching route
runs its handlers, and a later route is tried only when the last of them
called `next()`. With no route left the framework answers 404 itself. -/
def dispatch : List Route → Request → Store → Response × Store × Session
  | [], req, s => (⟨404, .notRouted⟩, s, req.session)
  | r :: rs, req, s =>
    if r.method = req.method then
      match matchPath r.path req.path with
      | some captured =>
        match runStack r.stack { req with params_id := captured } s with
        | .respond res s' sess => (res, s', sess)
        | .next req' s' => dispatch rs req' s'
      | none => dispatch rs req s
    else dispatch rs req s

/-- The route path `/api/<name>`. -/
def collection (name : String) : List Pat := [.lit "api", .lit name]

/-- The route path `/api/<name>/:id`. -/
def member (name : String) : List Pat := [.lit "api", .lit name, .id]

/-- The routes of `server.js`, in registration order. -/
def app (bc : Bcrypt) (salt : Nat) : List Route :=
  [ ⟨.POST, collection "register", [postRegister bc salt]⟩,
    ⟨.POST, collection "login", [postLogin bc]⟩,
    ⟨.GET, collection "projects", [requireAuth, getProjects]⟩,
    ⟨.GET, member "projects", [requireAuth, getProjectById]⟩,
    ⟨.POST, collection "projects", [requireAuth, postProjects]⟩,
    ⟨.PUT, member "projects", [requireAuth, putProject]⟩,
    ⟨.DELETE, member "projects", [deleteProject]⟩,
    ⟨.GET, collection "tasks", [getTasks]⟩,
    ⟨.GET, member "tasks", [getTaskById]⟩,
    ⟨.POST, collection "tasks", [postTasks]⟩,
    ⟨.PUT, member "tasks", [putTask]⟩,
    ⟨.DELETE, member "projects", [requireAuth, deleteProjectScoped]⟩ ]

/-- The request path `/api/<name>`. -/
def collectionPath (name : String) : List Seg := [.lit "api", .lit name]

/-- The request path `/api/<name>/<id>`. -/
def memberPath (name : String) (id : Seg) : List Seg := [.lit "api", .lit name, id]

/-- The store an outcome leaves. -/
def Outcome.store : Outcome → Store
  | .respond _ s _ => s
  | .next _ s => s

/-- The session record an outcome leaves. -/
def Outcome.session : Outcome → Session
  | .respond _ _ sess => sess
  | .next req _ => req.session

/-! ## Well-formed stores -/

/-- The constraints the schema puts on a database: primary keys are unique
and below the next auto-increment value, e-mail addresses are unique. -/
structure Store.WF (s : Store) : Prop where
  userIds : (s.users.map (fun u => u.id)).Nodup
  projectIds : (s.projects.map (fun p => p.id)).Nodup
  taskIds : (s.tasks.map (fun t => t.id)).Nodup
  emails : (s.users.map (fun u => u.email)).Nodup
  userBound : ∀ u ∈ s.users, u.id < s.nextUserId
  projectBound : ∀ p ∈ s.projects, p.id < s.nextProjectId
  taskBound : ∀ t ∈ s.tasks, t.id < s.nextTaskId

/-- A request turned into the request `method path` of the same client. -/
def Request.target (req : Request) (method : Method) (path : List Seg) : Request :=
  { req with method := method, path := path }

/-- The answer of the handler registered first for `DELETE /api/projects/:id`:
response, store and session; a path parameter the query cannot hold is
answered 500 by the `catch`. -/
def deleteAnswer (s : Store) (seg : Seg) (sess : Session) : Response × Store × Session :=
  (if seg.queryable then
      (if (s.projects.filter (fun p => seg.isId p.id)).length = 0 then
        ⟨404, .error "Project not found"⟩
      else ⟨200, .message "Project deleted successfully"⟩)
    else ⟨500, .error "Failed to delete project"⟩,
   if seg.queryable then
      { s with projects := s.projects.filter (fun p => !(seg.isId p.id)),
               tasks := cascadeTasks s.foreignKeys
                 (s.projects.filter (fun p => seg.isId p.id)) s.tasks }
    else s,
   sess)

/-- No project of `s` has another owner in `s'`: a row of `s'` with the key of a
row of `s` has that row's `userId`. -/
def Store.sameOwners (s s' : Store) : Prop :=
  ∀ p ∈ s.projects, ∀ p' ∈ s'.projects, p'.id = p.id → p'.userId = p.userId

/-- An outcome on the store `s` that leaves a store satisfying `P` when it is
a response, and the store `s` itself when it is a call of `next()`. -/
def Outcome.Leaves (o : Outcome) (s : Store) (P : Store → Prop) : Prop :=
  match o with
  | .respond _ s' _ => P s'
  | .next _ s' => s' = s

/-- A middleware all of whose outcomes on the store `s` are of that kind. -/
def Leaves (m : Middleware) (s : Store) (P : Store → Prop) : Prop :=
  ∀ req : Request, (m req s).Leaves s P

/-- What every handler leaves behind on a well-formed store: a well-formed
store in which no project has changed owner. -/
def Store.Next (s s' : Store) : Prop := s'.WF ∧ s.sameOwners s'

/-- The databases the application can be in: the empty database, and the
database any request leaves behind. -/
inductive Reachable (bc : Bcrypt) : Store → Prop where
  | init (fk : Bool) : Reachable bc (Store.empty fk)
  | step (s : Store) (salt : Nat) (req : Request) :
      Reachable bc s → Reachable bc (dispatch (app bc salt) req s).2.1

/-! ## A sample database -/

/-- A stand-in for `bcryptjs` in the examples: the hash is the password behind
a fixed prefix. -/
def demoBcrypt : Bcrypt :=
  { hash := fun pw _ _ => "$2a$10$" ++ pw
    compare := fun pw h => h == "$2a$10$" ++ pw }

/-- The user `alice`, key 1. -/
def alice : User := ⟨1, "alice", "a@x.com", "$2a$10$pw123"⟩

/-- The user `bob`, key 2. -/
def bob : User := ⟨2, "bob", "b@x.com", "$2a$10$hunter2"⟩

/-- A project of `alice`. -/
def projectOfAlice : Project := ⟨1, "P1", some "first", some "active", none, 1⟩

/-- A project of `bob`. -/
def projectOfBob : Project := ⟨2, "P2", none, some "active", some (.time 1700000000000), 2⟩

/-- A task of the project of `alice`. -/
def taskOne : Task := ⟨1, "T1", none, some false, some "medium", none, 1⟩

/-- A database with two users, a project each and one task. -/
def demoStore : Store :=
  { users := [alice, bob], projects := [projectOfAlice, projectOfBob], tasks := [taskOne],
    nextUserId := 3, nextProjectId := 3, nextTaskId := 2, foreignKeys := true }

/-- A request with the given session user and body (method and path are set
by `Request.target`). -/
def requestOf (sessionUser : Option ℕ+) (body : Body) : Request :=
  { method := .GET, path := [], body := body, session := ⟨sessionUser⟩ }

/-! ## Routing lemmas -/

theorem dispatch_skip_method (r : Route) (rs : List Route) (req : Request) (s : Store)
    (h : r.method ≠ req.method) : dispatch (r :: rs) req s = dispatch rs req s := by
  simp [dispatch, h]

theorem dispatch_skip_path (r : Route) (rs : List Route) (req : Request) (s : Store)
    (h : matchPath r.path req.path = none) :
    dispatch (r :: rs) req s = dispatch rs req s := by
  rw [dispatch, h]
  split <;> rfl

theorem dispatch_hit (r : Route) (rs : List Route) (req : Request) (s : Store)
    (captured : Option Seg) (res : Response) (s' : Store) (sess : Session)
    (hm : r.method = req.method) (hp : matchPath r.path req.path = some captured)
    (hrun : runStack r.stack { req with params_id := captured } s = .respond res s' sess) :
    dispatch (r :: rs) req s = (res, s', sess) := by
  rw [dispatch, if_pos hm, hp]
  simp only [hrun]

theorem dispatch_post_register (bc : Bcrypt) (salt : Nat) (req : Request) (s : Store)
    (res : Response) (s' : Store) (sess : Session)
    (hrun : runStack [postRegister bc salt]
      { req.target .POST (collectionPath "register") with params_id := none } s = .respond res s' sess) :
    dispatch (app bc salt) (req.target .POST (collectionPath "register")) s = (res, s', sess) := by
  unfold app
  exact dispatch_hit _ _ _ _ (none) res s' sess (by simp [Request.target])
    (by simp [Request.target, matchPath, collection, member, collectionPath, memberPath]) hrun

theorem dispatch_post_login (bc : Bcrypt) (salt : Nat) (req : Request) (s : Store)
    (res : Response) (s' : Store) (sess : Session)
    (hrun : runStack [postLogin bc]
      { req.target .POST (collectionPath "login") with params_id := none } s = .respond res s' sess) :
    dispatch (app bc salt) (req.target .POST (collectionPath "login")) s = (res, s', sess) := by
  unfold app
  repeat (first
    | (rw [dispatch_skip_method]; swap; focus (simp [Request.target]; done))
    | (rw [dispatch_skip_path]; swap; focus
        (simp [Request.target, matchPath, collection, member, collectionPath, memberPath]; done)))
  exact dispatch_hit _ _ _ _ (none) res s' sess (by simp [Request.target])
    (by simp [Request.target, matchPath, collection, member, collectionPath, memberPath]) hrun

theorem dispatch_get_projects (bc : Bcrypt) (salt : Nat) (req : Request) (s : Store)
    (res : Response) (s' : Store) (sess : Session)
    (hrun : runStack [requireAuth, getProjects]
      { req.target .GET (collectionPath "projects") with params_id := none } s = .respond res s' sess) :
    dispatch (app bc salt) (req.target .GET (collectionPath "projects")) s = (res, s', sess) := by
  unfold app
  repeat (first
    | (rw [dispatch_skip_method]; swap; focus (simp [Request.target]; done))
    | (rw [dispatch_skip_path]; swap; focus
        (simp [Request.target, matchPath, collection, member, collectionPath, memberPath]; done)))
  exact dispatch_hit _ _ _ _ (none) res s' sess (by simp [Request.target])
    (by simp [Request.target, matchPath, collection, member, collectionPath, memberPath]) hrun

theorem dispatch_get_project (bc : Bcrypt) (salt : Nat) (req : Request) (s : Store)
    (seg : Seg) (res : Response) (s' : Store) (sess : Session)
    (hrun : runStack [requireAuth, getProjectById]
      { req.target .GET (memberPath "projects" seg) with params_id := some seg } s = .respond res s' sess) :
    dispatch (app bc salt) (req.target .GET (memberPath "projects" seg)) s = (res, s', sess) := by
  unfold app
  repeat (first
    | (rw [dispatch_skip_method]; swap; focus (simp [Request.target]; done))
    | (rw [dispatch_skip_path]; swap; focus
        (simp [Request.target, matchPath, collection, member, collectionPath, memberPath]; done)))
  exact dispatch_hit _ _ _ _ (some seg) res s' sess (by simp [Request.target])
    (by simp [Request.target, matchPath, collection, member, collectionPath, memberPath]) hrun

theorem dispatch_post_projects (bc : Bcrypt) (salt : Nat) (req : Request) (s : Store)
    (res : Response) (s' : Store) (sess : Session)
    (hrun : runStack [requireAuth, postProjects]
      { req.target .POST (collectionPath "projects") with params_id := none } s = .respond res s' sess) :
    dispatch (app bc salt) (req.target .POST (collectionPath "projects")) s = (res, s', sess) := by
  unfold app
  repeat (first
    | (rw [dispatch_skip_method]; swap; focus (simp [Request.target]; done))
    | (rw [dispatch_skip_path]; swap; focus
        (simp [Request.target, matchPath, collection, member, collectionPath, memberPath]; done)))
  exact dispatch_hit _ _ _ _ (none) res s' sess (by simp [Request.target])
    (by simp [Request.target, matchPath, collection, member, collectionPath, memberPath]) hrun

theorem dispatch_put_project (bc : Bcrypt) (salt : Nat) (req : Request) (s : Store)
    (seg : Seg) (res : Response) (s' : Store) (sess : Session)
    (hrun : runStack [requireAuth, putProject]
      { req.target .PUT (memberPath "projects" seg) with params_id := some seg } s = .respond res s' sess) :
    dispatch (app bc salt) (req.target .PUT (memberPath "projects" seg)) s = (res, s', sess) := by
  unfold app
  repeat (first
    | (rw [dispatch_skip_method]; swap; focus (simp [Request.target]; done))
    | (rw [dispatch_skip_path]; swap; focus
        (simp [Request.target, matchPath, collection, member, collectionPath, memberPath]; done)))
  exact dispatch_hit _ _ _ _ (some seg) res s' sess (by simp [Request.target])
    (by simp [Request.target, matchPath, collection, member, collectionPath, memberPath]) hrun

theorem dispatch_delete_project (bc : Bcrypt) (salt : Nat) (req : Request) (s : Store)
    (seg : Seg) (res : Response) (s' : Store) (sess : Session)
    (hrun : runStack [deleteProject]
      { req.target .DELETE (memberPath "projects" seg) with params_id := some seg } s = .respond res s' sess) :
    dispatch (app bc salt) (req.target .DELETE (memberPath "projects" seg)) s = (res, s', sess) := by
  unfold app
  repeat (first
    | (rw [dispatch_skip_method]; swap; focus (simp [Request.target]; done))
    | (rw [dispatch_skip_path]; swap; focus
        (simp [Request.target, matchPath, collection, member, collectionPath, memberPath]; done)))
  exact dispatch_hit _ _ _ _ (some seg) res s' sess (by simp [Request.target])
    (by simp [Request.target, matchPath, collection, member, collectionPath, memberPath]) hrun

theorem dispatch_get_tasks (bc : Bcrypt) (salt : Nat) (req : Request) (s : Store)
    (res : Response) (s' : Store) (sess : Session)
    (hrun : runStack [getTasks]
      { req.target .GET (collectionPath "tasks") with params_id := none } s = .respond res s' sess) :
    dispatch (app bc salt) (req.target .GET (collectionPath "tasks")) s = (res, s', sess) := by
  unfold app
  repeat (first
    | (rw [dispatch_skip_method]; swap; focus (simp [Request.target]; done))
    | (rw [dispatch_skip_path]; swap; focus
        (simp [Request.target, matchPath, collection, member, collectionPath, memberPath]; done)))
  exact dispatch_hit _ _ _ _ (none) res s' sess (by simp [Request.target])
    (by simp [Request.target, matchPath, collection, member, collectionPath, memberPath]) hrun

theorem dispatch_get_task (bc : Bcrypt) (salt : Nat) (req : Request) (s : Store)
    (seg : Seg) (res : Response) (s' : Store) (sess : Session)
    (hrun : runStack [getTaskById]
      { req.target .GET (memberPath "tasks" seg) with params_id := some seg } s = .respond res s' sess) :
    dispatch (app bc salt) (req.target .GET (memberPath "tasks" seg)) s = (res, s', sess) := by
  unfold app
  repeat (first
    | (rw [dispatch_skip_method]; swap; focus (simp [Request.target]; done))
    | (rw [dispatch_skip_path]; swap; focus
        (simp [Request.target, matchPath, collection, member, collectionPath, memberPath]; done)))
  exact dispatch_hit _ _ _ _ (some seg) res s' sess (by simp [Request.target])
    (by simp [Request.target, matchPath, collection, member, collectionPath, memberPath]) hrun

theorem dispatch_post_tasks (bc : Bcrypt) (salt : Nat) (req : Request) (s : Store)
    (res : Response) (s' : Store) (sess : Session)
    (hrun : runStack [postTasks]
      { req.target .POST (collectionPath "tasks") with params_id := none } s = .respond res s' sess) :
    dispatch (app bc salt) (req.target .POST (collectionPath "tasks")) s = (res, s', sess) := by
  unfold app
  repeat (first
    | (rw [dispatch_skip_method]; swap; focus (simp [Request.target]; done))
    | (rw [dispatch_skip_path]; swap; focus
        (simp [Request.target, matchPath, collection, member, collectionPath, memberPath]; done)))
  exact dispatch_hit _ _ _ _ (none) res s' sess (by simp [Request.target])
    (by simp [Request.target, matchPath, collection, member, collectionPath, memberPath]) hrun

theorem dispatch_put_task (bc : Bcrypt) (salt : Nat) (req : Request) (s : Store)
    (seg : Seg) (res : Response) (s' : Store) (sess : Session)
    (hrun : runStack [putTask]
      { req.target .PUT (memberPath "tasks" seg) with params_id := some seg } s = .respond res s' sess) :
    dispatch (app bc salt) (req.target .PUT (memberPath "tasks" seg)) s = (res, s', sess) := by
  unfold app
  repeat (first
    | (rw [dispatch_skip_method]; swap; focus (simp [Request.target]; done))
    | (rw [dispatch_skip_path]; swap; focus
        (simp [Request.target, matchPath, collection, member, collectionPath, memberPath]; done)))
  exact dispatch_hit _ _ _ _ (some seg) res s' sess (by simp [Request.target])
    (by simp [Request.target, matchPath, collection, member, collectionPath, memberPath]) hrun


/-! ## Handler lemmas -/

theorem runStack_requireAuth (rest : List Middleware) (req : Request) (s : Store) (uid : ℕ+)
    (h : req.session.userId = some uid) :
    runStack (requireAuth :: rest) req s = runStack rest { req with userId := some uid } s := by
  simp [runStack, requireAuth, h]

theorem runStack_requireAuth_none (rest : List Middleware) (req : Request) (s : Store)
    (h : req.session.userId = none) :
    runStack (requireAuth :: rest) req s =
      .respond ⟨401, .error "You must be logged in to access this resource"⟩ s req.session := by
  simp [runStack, requireAuth, h]

theorem runStack_single (m : Middleware) (req : Request) (s : Store) (res : Response)
    (s' : Store) (sess : Session) (h : m req s = .respond res s' sess) :
    runStack [m] req s = .respond res s' sess := by
  simp [runStack, h]

theorem eq_of_id_eq {α : Type} (key : α → ℕ+) (l : List α) (h : (l.map key).Nodup)
    (x y : α) (hx : x ∈ l) (hy : y ∈ l) (hxy : key x = key y) : x = y :=
  List.inj_on_of_nodup_map h hx hy hxy

theorem Seg.isId_unique (seg : Seg) (i j : ℕ+) (hi : seg.isId i = true)
    (hj : seg.isId j = true) : i = j := by
  cases seg with
  | lit t => simp [Seg.isId] at hi
  | num n =>
    simp only [Seg.isId, beq_iff_eq] at hi hj
    exact PNat.eq (hi.symm.trans hj)

theorem Seg.queryable_of_isId (seg : Seg) (i : ℕ+) (h : seg.isId i = true) :
    seg.queryable = true := by
  cases seg with
  | lit t => simp [Seg.isId] at h
  | num n => rfl

/-- A lookup scoped by id and owner finds nothing when the row with that id
has another owner. -/
theorem findOne_foreign (s : Store) (hs : s.WF) (a : ℕ+) (p : Seg) (pb : Project)
    (hpb : pb ∈ s.projects) (hp : p.isId pb.id = true) (hB : pb.userId ≠ a) :
    Project.findOne s (some p) (some a) = .ok none := by
  simp only [Project.findOne, Seg.queryable_of_isId p _ hp, if_true, Except.ok.injEq,
    List.find?_eq_none]
  intro r hr
  simp only [Bool.and_eq_true, beq_iff_eq, not_and]
  intro hrid hra
  have hid : r.id = pb.id := Seg.isId_unique p _ _ hrid hp
  have : r = pb := eq_of_id_eq (fun x => x.id) s.projects hs.projectIds r pb hr hpb hid
  exact hB (this ▸ hra)

/-- A lookup finds nothing when no row has the id. -/
theorem findOne_missing (s : Store) (a : ℕ+) (q : Seg) (hqt : q.queryable = true)
    (hq : ∀ r ∈ s.projects, q.isId r.id = false) :
    Project.findOne s (some q) (some a) = .ok none := by
  simp only [Project.findOne, hqt, if_true, Except.ok.injEq, List.find?_eq_none]
  intro r hr
  simp [hq r hr]

/-- A lookup scoped by id and owner finds the owner's row. -/
theorem findOne_own (s : Store) (hs : s.WF) (a : ℕ+) (p : Seg) (pa : Project)
    (hpa : pa ∈ s.projects) (hp : p.isId pa.id = true) (hA : pa.userId = a) :
    Project.findOne s (some p) (some a) = .ok (some pa) := by
  simp only [Project.findOne, Seg.queryable_of_isId p _ hp, if_true, Except.ok.injEq]
  cases hf : s.projects.find? (fun r => p.isId r.id && r.userId == a) with
  | none =>
    rw [List.find?_eq_none] at hf
    have := hf pa hpa
    simp [hp, hA] at this
  | some r =>
    have hr := List.mem_of_find?_eq_some hf
    have hprop := List.find?_some hf
    simp only [Bool.and_eq_true, beq_iff_eq] at hprop
    have hid : r.id = pa.id := Seg.isId_unique p _ _ hprop.1 hp
    rw [eq_of_id_eq (fun x => x.id) s.projects hs.projectIds r pa hr hpa hid]

/-! ## The access-control gate -/

/-- C4. `requireAuth`: with no `userId` in the session it answers 401 and does
not call `next`, so whatever handlers follow it on the route do not run and
the store stays as it was; otherwise it writes the session's `userId` into
`req.userId` and hands the request on, once, to the handlers that follow. In
both cases the store and the session record are the ones it was given. -/
theorem requireAuth_gate (req : Request) (s : Store) (rest : List Middleware) :
    (req.session.userId = none →
      requireAuth req s =
        .respond ⟨401, .error "You must be logged in to access this resource"⟩ s req.session ∧
      runStack (requireAuth :: rest) req s =
        .respond ⟨401, .error "You must be logged in to access this resource"⟩ s req.session) ∧
    (∀ uid, req.session.userId = some uid →
      requireAuth req s = .next { req with userId := some uid } s ∧
      runStack (requireAuth :: rest) req s = runStack rest { req with userId := some uid } s) ∧
    (requireAuth req s).store = s ∧ (requireAuth req s).session = req.session := by
  refine ⟨fun h => ⟨?_, runStack_requireAuth_none rest req s h⟩,
    fun uid h => ⟨?_, runStack_requireAuth rest req s uid h⟩, ?_, ?_⟩
  · simp [requireAuth, h]
  · simp [requireAuth, h]
  · unfold requireAuth; split <;> rfl
  · unfold requireAuth; split <;> rfl

/-! ## Project routes -/

/-- C1. For a caller `a` and a path id `p` that is the id of a project owned
by somebody else, `GET /api/projects/p` and `PUT /api/projects/p` (any body)
give the answer they give for an id `q` that no project has (a number, or
text the store can look up): status 404, the body `Project not found or
access denied`, and the store as it was. -/
theorem foreign_project_as_missing (bc : Bcrypt) (salt : Nat) (s : Store) (hs : s.WF)
    (req : Request) (a : ℕ+) (hA : req.session.userId = some a)
    (p q : Seg) (pb : Project) (hpb : pb ∈ s.projects) (hp : p.isId pb.id = true)
    (hB : pb.userId ≠ a) (hqt : q.queryable = true)
    (hq : ∀ r ∈ s.projects, q.isId r.id = false) :
    dispatch (app bc salt) (req.target .GET (memberPath "projects" p)) s =
      (⟨404, .error "Project not found or access denied"⟩, s, req.session) ∧
    dispatch (app bc salt) (req.target .GET (memberPath "projects" q)) s =
      (⟨404, .error "Project not found or access denied"⟩, s, req.session) ∧
    dispatch (app bc salt) (req.target .PUT (memberPath "projects" p)) s =
      (⟨404, .error "Project not found or access denied"⟩, s, req.session) ∧
    dispatch (app bc salt) (req.target .PUT (memberPath "projects" q)) s =
      (⟨404, .error "Project not found or access denied"⟩, s, req.session) := by
  have h1 := findOne_foreign s hs a p pb hpb hp hB
  have h2 := findOne_missing s a q hqt hq
  refine ⟨?_, ?_, ?_, ?_⟩
  · apply dispatch_get_project
    rw [runStack_requireAuth _ _ _ a (by simpa [Request.target] using hA)]
    apply runStack_single
    simp [getProjectById, h1, Request.target]
  · apply dispatch_get_project
    rw [runStack_requireAuth _ _ _ a (by simpa [Request.target] using hA)]
    apply runStack_single
    simp [getProjectById, h2, Request.target]
  · apply dispatch_put_project
    rw [runStack_requireAuth _ _ _ a (by simpa [Request.target] using hA)]
    apply runStack_single
    simp [putProject, h1, Request.target]
  · apply dispatch_put_project
    rw [runStack_requireAuth _ _ _ a (by simpa [Request.target] using hA)]
    apply runStack_single
    simp [putProject, h2, Request.target]

/-- C8. For a caller `a`, `GET /api/projects` answers 200 with the rows of
`Project` whose `userId` is `a`: a project is in the list exactly when it is
in the store and `a` owns it. The store is not changed. -/
theorem list_projects_owned (bc : Bcrypt) (salt : Nat) (s : Store) (req : Request)
    (a : ℕ+) (hA : req.session.userId = some a) :
    dispatch (app bc salt) (req.target .GET (collectionPath "projects")) s =
      (⟨200, .projects (s.projects.filter (fun p => p.userId == a))⟩, s, req.session) ∧
    ∀ p : Project,
      p ∈ s.projects.filter (fun p => p.userId == a) ↔ p ∈ s.projects ∧ p.userId = a := by
  refine ⟨?_, fun p => by simp⟩
  apply dispatch_get_projects
  rw [runStack_requireAuth _ _ _ a (by simpa [Request.target] using hA)]
  apply runStack_single
  simp [getProjects, Project.findAll, Request.target]

/-- The answer of `POST /api/projects` in terms of `Project.create`. -/
theorem dispatch_post_projects_eq (bc : Bcrypt) (salt : Nat) (s : Store) (req : Request)
    (a : ℕ+) (hA : req.session.userId = some a) :
    dispatch (app bc salt) (req.target .POST (collectionPath "projects")) s =
      match Project.create s req.body.name req.body.description req.body.status
          req.body.dueDate (some a) with
      | .ok (newProject, s') => (⟨201, .project newProject⟩, s', req.session)
      | .error _ => (⟨500, .error "Failed to create project"⟩, s, req.session) := by
  cases hc : Project.create s req.body.name req.body.description req.body.status
      req.body.dueDate (some a) with
  | ok r =>
    apply dispatch_post_projects
    rw [runStack_requireAuth _ _ _ a (by simpa [Request.target] using hA)]
    apply runStack_single
    simp [postProjects, hc, Request.target]
  | error e =>
    apply dispatch_post_projects
    rw [runStack_requireAuth _ _ _ a (by simpa [Request.target] using hA)]
    apply runStack_single
    simp [postProjects, hc, Request.target]

/-- C2. `POST /api/projects` by a caller `a`, whatever the body holds (its own
`userId` field included): when the answer is 201, its body is a project whose
`userId` is `a`, the new row has the next key, and the store's projects are
the old ones followed by that row; and the answer is 201 whenever the body
supplies a name and the owner reference can be stored. -/
theorem create_project_owner (bc : Bcrypt) (salt : Nat) (s : Store) (req : Request)
    (a : ℕ+) (hA : req.session.userId = some a) :
    (∀ res s' sess,
      dispatch (app bc salt) (req.target .POST (collectionPath "projects")) s = (res, s', sess) →
      res.status = 201 →
      ∃ p : Project, res.body = .project p ∧ p.userId = a ∧ p.id = s.nextProjectId ∧
        s'.projects = s.projects ++ [p] ∧ p ∈ s'.projects) ∧
    (∀ n : String, req.body.name = .val n →
      (s.foreignKeys = false ∨ ∃ u ∈ s.users, u.id = a) →
      (dispatch (app bc salt) (req.target .POST (collectionPath "projects")) s).1.status = 201) := by
  rw [dispatch_post_projects_eq bc salt s req a hA]
  constructor
  · intro res s' sess h hst
    cases hn : req.body.name with
    | val n =>
      by_cases hc : (s.foreignKeys && !(s.users.any (fun usr => usr.id == a))) = true
      · simp only [Project.create, hn, hc, if_true, Prod.mk.injEq] at h
        rw [← h.1] at hst
        simp at hst
      · simp only [Project.create, hn, hc, Bool.false_eq_true, if_false, Prod.mk.injEq] at h
        obtain ⟨h1, h2, _⟩ := h
        subst h1 h2
        exact ⟨_, rfl, rfl, rfl, rfl, by simp⟩
    | undefined =>
      simp only [Project.create, hn, Prod.mk.injEq] at h
      rw [← h.1] at hst
      simp at hst
    | null =>
      simp only [Project.create, hn, Prod.mk.injEq] at h
      rw [← h.1] at hst
      simp at hst
  · intro n hn hfk
    have hcond : (s.foreignKeys && !(s.users.any (fun usr => usr.id == a))) = false := by
      rcases hfk with h | ⟨u, hu, hua⟩
      · simp [h]
      · have : s.users.any (fun usr => usr.id == a) = true := by
          simp only [List.any_eq_true, beq_iff_eq]
          exact ⟨u, hu, hua⟩
        simp [this]
    simp [Project.create, hn, hcond]

/-! ## Registration and login -/

/-- A lookup by an e-mail the query cannot hold is rejected. -/
theorem User.findOne_rejected (s : Store) (e : String) (ht : sqlText e = false) :
    User.findOne s e = .error .queryRejected := by
  simp [User.findOne, ht]

/-- A lookup by e-mail finds nothing when no user has the address. -/
theorem User.findOne_none (s : Store) (e : String) (ht : sqlText e = true)
    (h : ∀ u ∈ s.users, u.email ≠ e) : User.findOne s e = .ok none := by
  simp only [User.findOne, ht, if_true, Except.ok.injEq, List.find?_eq_none]
  intro u hu
  simpa using h u hu

/-- A lookup by e-mail finds some user when one has the address. -/
theorem User.findOne_some (s : Store) (e : String) (ht : sqlText e = true) (u : User)
    (hu : u ∈ s.users) (hue : u.email = e) :
    ∃ v, User.findOne s e = .ok (some v) ∧ v ∈ s.users ∧ v.email = e := by
  simp only [User.findOne, ht, if_true, Except.ok.injEq]
  cases hf : s.users.find? (fun u => u.email == e) with
  | none =>
    rw [List.find?_eq_none] at hf
    have := hf u hu
    simp [hue] at this
  | some v =>
    have h1 := List.mem_of_find?_eq_some hf
    have h2 := List.find?_some hf
    exact ⟨v, rfl, h1, by simpa using h2⟩

/-- With unique e-mail addresses the lookup finds the user that has the
address. -/
theorem User.findOne_eq (s : Store) (hs : s.WF) (e : String) (ht : sqlText e = true)
    (u : User) (hu : u ∈ s.users) (hue : u.email = e) : User.findOne s e = .ok (some u) := by
  obtain ⟨v, hv, hvm, hve⟩ := User.findOne_some s e ht u hu hue
  have : v = u := List.inj_on_of_nodup_map hs.emails hvm hu (hve.trans hue.symm)
  rw [hv, this]

theorem Field.truthy_val (e : String) (h : e ≠ "") : (Field.val e).truthy = true := by
  simp [Field.truthy, Truthy.truthy, h]

theorem Field.truthy_str (pw : String) (h : pw ≠ "") :
    (Field.val (Json.str pw)).truthy = true := by
  simp [Field.truthy, Truthy.truthy, h]

/-- C5 (amended). A login request with a non-empty e-mail and a non-empty
string password. When the e-mail is text the store can look up: if no user
has the e-mail, and if a user has it but the password does not verify against
the stored hash, the answer is the same (401, `Invalid email or password`)
and the session record is the one the request came with; if the password
verifies the answer is 200 and the session's `userId` is the id of the user
with that e-mail. When the e-mail cannot be looked up the answer is 500 and
the session record is the one the request came with. The store is never
changed. -/
theorem login_outcomes (bc : Bcrypt) (salt : Nat) (s : Store) (hs : s.WF) (req : Request)
    (e pw : String) (he : req.body.email = .val e)
    (hpw : req.body.password = .val (.str pw)) (hne : e ≠ "") (hnp : pw ≠ "") :
    (sqlText e = true → (∀ u ∈ s.users, u.email ≠ e) →
      dispatch (app bc salt) (req.target .POST (collectionPath "login")) s =
        (⟨401, .error "Invalid email or password"⟩, s, req.session)) ∧
    (sqlText e = true → ∀ u ∈ s.users, u.email = e → bc.compare pw u.password = false →
      dispatch (app bc salt) (req.target .POST (collectionPath "login")) s =
        (⟨401, .error "Invalid email or password"⟩, s, req.session)) ∧
    (sqlText e = true → ∀ u ∈ s.users, u.email = e → bc.compare pw u.password = true →
      dispatch (app bc salt) (req.target .POST (collectionPath "login")) s =
        (⟨200, .message "Login successful"⟩, s, { userId := some u.id })) ∧
    (sqlText e = false →
      dispatch (app bc salt) (req.target .POST (collectionPath "login")) s =
        (⟨500, .error "Failed to log in"⟩, s, req.session)) := by
  have te := Field.truthy_val e hne
  have tp := Field.truthy_str pw hnp
  refine ⟨fun ht h => ?_, fun ht u hu hue hc => ?_, fun ht u hu hue hc => ?_, fun ht => ?_⟩
  · apply dispatch_post_login
    apply runStack_single
    simp [postLogin, Request.target, he, hpw, te, tp, Field.get, User.findOne_none s e ht h]
  · apply dispatch_post_login
    apply runStack_single
    simp [postLogin, Request.target, he, hpw, te, tp, Field.get,
      User.findOne_eq s hs e ht u hu hue, hc]
  · apply dispatch_post_login
    apply runStack_single
    simp [postLogin, Request.target, he, hpw, te, tp, Field.get,
      User.findOne_eq s hs e ht u hu hue, hc]
  · apply dispatch_post_login
    apply runStack_single
    simp [postLogin, Request.target, he, hpw, te, tp, Field.get,
      User.findOne_rejected s e ht]

/-- The answer of `POST /api/register` when one of the three fields fails the
presence test. -/
theorem register_invalid (bc : Bcrypt) (salt : Nat) (s : Store) (req : Request)
    (h : req.body.username.truthy = false ∨ req.body.email.truthy = false ∨
      req.body.password.truthy = false) :
    dispatch (app bc salt) (req.target .POST (collectionPath "register")) s =
      (⟨400, .error "All fields are required"⟩, s, req.session) := by
  apply dispatch_post_register
  apply runStack_single
  rcases h with h | h | h <;> simp [postRegister, Request.target, h]

/-- C7 (amended). `POST /api/register`: when `username`, `email` or `password`
is absent (undefined, null or empty: the cases the presence test `!x`
rejects) the answer is 400 `All fields are required`, the same for every
store, and the store is not changed. When the three are present, the e-mail
is text the store can look up, the password is a string and no user has the
e-mail, the store gains one user, with the next key, the given username and
e-mail and the password `bc.hash password 10 salt`, and the answer is 201
with that key; the key is not the key of an existing user. When the three are
present and the e-mail cannot be looked up, or no user has the e-mail and the
password is not a string, the answer is 500 and the store is not changed. -/
theorem register_outcomes (bc : Bcrypt) (salt : Nat) (s : Store) (req : Request) :
    ((req.body.username.truthy = false ∨ req.body.email.truthy = false ∨
        req.body.password.truthy = false) →
      dispatch (app bc salt) (req.target .POST (collectionPath "register")) s =
        (⟨400, .error "All fields are required"⟩, s, req.session)) ∧
    (∀ n e pw : String, req.body.username = .val n → req.body.email = .val e →
      req.body.password = .val (.str pw) → n ≠ "" → e ≠ "" → pw ≠ "" →
      sqlText e = true → (∀ u ∈ s.users, u.email ≠ e) →
      dispatch (app bc salt) (req.target .POST (collectionPath "register")) s =
        (⟨201, .registered "User registered successfully" s.nextUserId⟩,
         { s with users := s.users ++ [⟨s.nextUserId, n, e, bc.hash pw 10 salt⟩],
                  nextUserId := s.nextUserId + 1 },
         req.session)) ∧
    (s.WF → ∀ u ∈ s.users, u.id ≠ s.nextUserId) ∧
    (∀ e : String, req.body.email = .val e → req.body.username.truthy = true →
      req.body.email.truthy = true → req.body.password.truthy = true →
      sqlText e = false →
      dispatch (app bc salt) (req.target .POST (collectionPath "register")) s =
        (⟨500, .error "Failed to register user"⟩, s, req.session)) ∧
    (∀ e : String, req.body.email = .val e → req.body.username.truthy = true →
      req.body.email.truthy = true → req.body.password.truthy = true →
      sqlText e = true → (∀ u ∈ s.users, u.email ≠ e) →
      (∀ pw : String, req.body.password ≠ .val (.str pw)) →
      dispatch (app bc salt) (req.target .POST (collectionPath "register")) s =
        (⟨500, .error "Failed to register user"⟩, s, req.session)) := by
  refine ⟨register_invalid bc salt s req, ?_, fun hs u hu => ne_of_lt (hs.userBound u hu),
    ?_, ?_⟩
  · intro n e pw hn he hpw hn0 he0 hpw0 ht hfree
    apply dispatch_post_register
    apply runStack_single
    have hany : s.users.any (fun u => u.email == e) = false := by
      rw [List.any_eq_false]
      intro u hu
      simpa using hfree u hu
    simp [postRegister, Request.target, hn, he, hpw, Field.truthy, Truthy.truthy, hn0, he0,
      hpw0, Field.get, User.findOne_none s e ht hfree, User.create, hany]
  · intro e he h1 h2 h3 ht
    apply dispatch_post_register
    apply runStack_single
    have h2' : (Field.val e).truthy = true := he ▸ h2
    simp [postRegister, Request.target, he, h1, h2', h3, Field.get,
      User.findOne_rejected s e ht]
  · intro e he h1 h2 h3 ht hfree hpw
    apply dispatch_post_register
    apply runStack_single
    have h2' : (Field.val e).truthy = true := he ▸ h2
    simp only [postRegister, Request.target, he, h1, h2', h3, Field.get,
      User.findOne_none s e ht hfree, Bool.not_true, Bool.or_self, Bool.false_eq_true,
      if_false]

/-- C6 (amended). When a user with e-mail `e` exists, `POST /api/register` with
the e-mail `e` is rejected and leaves the store as it was: with 400
`All fields are required` when username, e-mail or password does not pass the
presence test; when all three pass it, with 400 `Email is already registered`
if the e-mail is text the store can look up, and with 500 if it is not. -/
theorem register_existing_email (bc : Bcrypt) (salt : Nat) (s : Store) (req : Request)
    (u : User) (hu : u ∈ s.users) (he : req.body.email = .val u.email) :
    dispatch (app bc salt) (req.target .POST (collectionPath "register")) s =
      (if req.body.username.truthy && req.body.email.truthy &&
          req.body.password.truthy then
        (if sqlText u.email then ⟨400, .error "Email is already registered"⟩
          else ⟨500, .error "Failed to register user"⟩)
        else ⟨400, .error "All fields are required"⟩, s, req.session) := by
  by_cases hall : (req.body.username.truthy && req.body.email.truthy &&
      req.body.password.truthy) = true
  · rw [if_pos hall]
    simp only [Bool.and_eq_true] at hall
    obtain ⟨⟨h1, h2⟩, h3⟩ := hall
    have h2' : (Field.val u.email).truthy = true := he ▸ h2
    apply dispatch_post_register
    apply runStack_single
    by_cases ht : sqlText u.email = true
    · obtain ⟨v, hv, _, _⟩ := User.findOne_some s u.email ht u hu rfl
      simp [postRegister, Request.target, h1, h2', h3, he, Field.get, hv, ht]
    · have ht' : sqlText u.email = false := by simpa using ht
      simp [postRegister, Request.target, h1, h2', h3, he, Field.get,
        User.findOne_rejected s u.email ht', ht']
  · rw [if_neg hall]
    apply register_invalid
    simp only [Bool.and_eq_true, not_and, Bool.not_eq_true] at hall
    by_cases h1 : req.body.username.truthy = true
    · by_cases h2 : req.body.email.truthy = true
      · exact Or.inr (Or.inr (hall ⟨h1, h2⟩))
      · exact Or.inr (Or.inl (by simpa using h2))
    · exact Or.inl (by simpa using h1)

/-! ## Deleting a project -/

theorem runStack_deleteProject (s : Store) (req : Request) (seg : Seg) :
    runStack [deleteProject]
      { req.target .DELETE (memberPath "projects" seg) with params_id := some seg } s =
      .respond (deleteAnswer s seg req.session).1 (deleteAnswer s seg req.session).2.1
        req.session := by
  apply runStack_single
  by_cases hq : seg.queryable = true
  · simp only [deleteProject, Project.destroy, deleteAnswer, Request.target, hq, if_true]
    split <;> simp_all
  · simp [deleteProject, Project.destroy, deleteAnswer, Request.target, hq]

theorem dispatch_delete_first (bc : Bcrypt) (salt : Nat) (later : List Route) (s : Store)
    (req : Request) (seg : Seg) :
    dispatch ((app bc salt).take 7 ++ later) (req.target .DELETE (memberPath "projects" seg)) s =
      deleteAnswer s seg req.session := by
  unfold app
  simp only [List.take_succ_cons, List.take_zero, List.cons_append, List.nil_append]
  repeat (first
    | (rw [dispatch_skip_method]; swap; focus (simp [Request.target]; done))
    | (rw [dispatch_skip_path]; swap; focus
        (simp [Request.target, matchPath, collection, member, collectionPath, memberPath]; done)))
  exact dispatch_hit _ _ _ _ (some seg) _ _ _ (by simp [Request.target])
    (by simp [Request.target, matchPath, collection, member, collectionPath, memberPath])
    (runStack_deleteProject s req seg)

/-- C3. `DELETE /api/projects/:id` is answered by the handler registered
first: the answer is the same whatever routes are registered after that
handler (so the owner-scoped handler registered later has no part in it), and
it is the answer `deleteAnswer` of the first handler, which matches the row
by id alone. For every request, with or without a session, when a project has
the id the answer is 200 `Project deleted successfully` and no project with
the id is left, the other projects staying as they were. -/
theorem delete_project_first_handler (bc : Bcrypt) (salt : Nat) (s : Store) (req : Request)
    (seg : Seg) :
    (∀ later : List Route,
      dispatch ((app bc salt).take 7 ++ later)
          (req.target .DELETE (memberPath "projects" seg)) s =
        dispatch (app bc salt) (req.target .DELETE (memberPath "projects" seg)) s) ∧
    deleteProject
        { req.target .DELETE (memberPath "projects" seg) with params_id := some seg } s =
      .respond (deleteAnswer s seg req.session).1 (deleteAnswer s seg req.session).2.1
        req.session ∧
    dispatch (app bc salt) (req.target .DELETE (memberPath "projects" seg)) s =
      deleteAnswer s seg req.session ∧
    (∀ p ∈ s.projects, seg.isId p.id = true →
      (deleteAnswer s seg req.session).1 = ⟨200, .message "Project deleted successfully"⟩ ∧
      p ∉ (deleteAnswer s seg req.session).2.1.projects ∧
      (∀ r ∈ (deleteAnswer s seg req.session).2.1.projects, seg.isId r.id = false) ∧
      (∀ r ∈ s.projects, seg.isId r.id = false →
        r ∈ (deleteAnswer s seg req.session).2.1.projects)) := by
  have happ : dispatch (app bc salt) (req.target .DELETE (memberPath "projects" seg)) s =
      deleteAnswer s seg req.session := by
    apply dispatch_delete_project
    exact runStack_deleteProject s req seg
  refine ⟨fun later => ?_, ?_, happ, ?_⟩
  · rw [happ, dispatch_delete_first]
  · have h := runStack_deleteProject s req seg
    simp only [runStack] at h
    split at h
    · rename_i hd
      rw [hd, h]
    · rename_i hd
      cases h
  · intro p hp hid
    have hne : (s.projects.filter (fun p => seg.isId p.id)).length ≠ 0 := by
      have : p ∈ s.projects.filter (fun p => seg.isId p.id) := by simp [hp, hid]
      exact List.length_pos_iff_ne_nil.mp (List.length_pos_of_mem this) |>
        fun h hz => h (List.length_eq_zero.mp hz)
    have hq := Seg.queryable_of_isId seg _ hid
    refine ⟨by simp [deleteAnswer, hne, hq], by simp [deleteAnswer, hid, hq], ?_, ?_⟩
    · intro r hr
      simp only [deleteAnswer, hq, if_true, List.mem_filter] at hr
      simpa using hr.2
    · intro r hr hrid
      simp [deleteAnswer, hr, hrid, hq]

/-! ## Task routes -/

theorem getTasks_blind (req : Request) (s : Store) :
    ∃ res s', ∀ sess, getTasks { req with session := sess } s = .respond res s' sess :=
  ⟨_, _, fun _ => rfl⟩

theorem getTaskById_blind (req : Request) (s : Store) :
    ∃ res s', ∀ sess, getTaskById { req with session := sess } s = .respond res s' sess := by
  cases h : Task.findByPk s req.params_id with
  | error e =>
    exact ⟨⟨500, .error "Failed to fetch task"⟩, s, fun sess => by
      simp only [getTaskById, h]⟩
  | ok found =>
    cases found with
    | none =>
      exact ⟨⟨404, .error "Task not found"⟩, s, fun sess => by simp only [getTaskById, h]⟩
    | some t => exact ⟨⟨200, .task t⟩, s, fun sess => by simp only [getTaskById, h]⟩

theorem postTasks_blind (req : Request) (s : Store) :
    ∃ res s', ∀ sess, postTasks { req with session := sess } s = .respond res s' sess := by
  cases h : Task.create s req.body.title req.body.description req.body.completed
      req.body.priority req.body.dueDate req.body.projectId with
  | error e =>
    exact ⟨⟨500, .error "Failed to create task"⟩, s, fun sess => by simp only [postTasks, h]⟩
  | ok r => exact ⟨⟨201, .task r.1⟩, r.2, fun sess => by simp only [postTasks, h]⟩

theorem putTask_blind (req : Request) (s : Store) :
    ∃ res s', ∀ sess, putTask { req with session := sess } s = .respond res s' sess := by
  cases h : Task.update s req.body.title req.body.description req.body.completed
      req.body.priority req.body.dueDate req.body.projectId req.params_id with
  | error e =>
    exact ⟨⟨500, .error "Failed to update task"⟩, s, fun sess => by simp only [putTask, h]⟩
  | ok r =>
    obtain ⟨n, s'⟩ := r
    by_cases hn : n = 0
    · exact ⟨⟨404, .error "Task not found"⟩, s', fun sess => by
        simp only [putTask, h, hn, if_true]⟩
    · cases hf : Task.findByPk s' req.params_id with
      | error e =>
        exact ⟨⟨500, .error "Failed to update task"⟩, s', fun sess => by
          simp only [putTask, h, hn, if_false, hf]⟩
      | ok found =>
        cases found with
        | none =>
          exact ⟨⟨200, .null⟩, s', fun sess => by simp only [putTask, h, hn, if_false, hf]⟩
        | some t =>
          exact ⟨⟨200, .task t⟩, s', fun sess => by
            simp only [putTask, h, hn, if_false, hf]⟩

/-- C9. The four task routes do not read the session: for every store,
path id and body there is one response and one resulting store that
`GET /api/tasks`, `GET /api/tasks/:id`, `POST /api/tasks` and
`PUT /api/tasks/:id` produce for every session record (no session, or the
session of any user), and the session record is returned as it came. -/
theorem task_routes_ignore_session (bc : Bcrypt) (salt : Nat) (s : Store) (req : Request)
    (seg : Seg) :
    (∃ res s', ∀ sess : Session,
      dispatch (app bc salt)
        (Request.target { req with session := sess } .GET (collectionPath "tasks")) s =
        (res, s', sess)) ∧
    (∃ res s', ∀ sess : Session,
      dispatch (app bc salt)
        (Request.target { req with session := sess } .GET (memberPath "tasks" seg)) s =
        (res, s', sess)) ∧
    (∃ res s', ∀ sess : Session,
      dispatch (app bc salt)
        (Request.target { req with session := sess } .POST (collectionPath "tasks")) s =
        (res, s', sess)) ∧
    (∃ res s', ∀ sess : Session,
      dispatch (app bc salt)
        (Request.target { req with session := sess } .PUT (memberPath "tasks" seg)) s =
        (res, s', sess)) := by
  refine ⟨?_, ?_, ?_, ?_⟩
  · obtain ⟨res, s', h⟩ := getTasks_blind
      { req.target .GET (collectionPath "tasks") with params_id := none } s
    exact ⟨res, s', fun sess => dispatch_get_tasks bc salt _ s res s' sess
      (runStack_single _ _ _ _ _ _ (h sess))⟩
  · obtain ⟨res, s', h⟩ := getTaskById_blind
      { req.target .GET (memberPath "tasks" seg) with params_id := some seg } s
    exact ⟨res, s', fun sess => dispatch_get_task bc salt _ s seg res s' sess
      (runStack_single _ _ _ _ _ _ (h sess))⟩
  · obtain ⟨res, s', h⟩ := postTasks_blind
      { req.target .POST (collectionPath "tasks") with params_id := none } s
    exact ⟨res, s', fun sess => dispatch_post_tasks bc salt _ s res s' sess
      (runStack_single _ _ _ _ _ _ (h sess))⟩
  · obtain ⟨res, s', h⟩ := putTask_blind
      { req.target .PUT (memberPath "tasks" seg) with params_id := some seg } s
    exact ⟨res, s', fun sess => dispatch_put_task bc salt _ s seg res s' sess
      (runStack_single _ _ _ _ _ _ (h sess))⟩

/-! ## Invariants of the store -/

theorem nodup_append_fresh {α : Type} (key : α → ℕ+) (l : List α) (y : α) (n : ℕ+)
    (h : (l.map key).Nodup) (hb : ∀ x ∈ l, key x < n) (hy : key y = n) :
    ((l ++ [y]).map key).Nodup := by
  rw [List.map_append, List.nodup_append]
  refine ⟨h, by simp, ?_⟩
  intro a ha hb'
  simp only [List.map_cons, List.map_nil, List.mem_singleton] at hb'
  obtain ⟨x, hx, hxa⟩ := List.mem_map.mp ha
  have := hb x hx
  rw [hxa, hb', hy] at this
  exact lt_irrefl _ this

theorem bound_append_fresh {α : Type} (key : α → ℕ+) (l : List α) (y : α) (n : ℕ+)
    (hb : ∀ x ∈ l, key x < n) (hy : key y = n) : ∀ x ∈ l ++ [y], key x < n + 1 := by
  intro x hx
  rcases List.mem_append.mp hx with h | h
  · exact lt_trans (hb x h) (PNat.lt_add_right n 1)
  · rw [List.mem_singleton.mp h, hy]
    exact PNat.lt_add_right n 1

theorem nodup_map_same_key {α : Type} (key : α → ℕ+) (f : α → α) (l : List α)
    (hf : ∀ x, key (f x) = key x) (h : (l.map key).Nodup) : ((l.map f).map key).Nodup := by
  have : (l.map f).map key = l.map key := by
    rw [List.map_map]
    exact List.map_congr_left (fun x _ => hf x)
  rw [this]
  exact h

theorem nodup_filter_key {α : Type} (key : α → ℕ+) (q : α → Bool) (l : List α)
    (h : (l.map key).Nodup) : ((l.filter q).map key).Nodup :=
  List.Nodup.sublist (List.Sublist.map key (List.filter_sublist l)) h

theorem sameOwners_of_subset (s s' : Store) (hs : s.WF)
    (h : ∀ p' ∈ s'.projects, p' ∈ s.projects) : s.sameOwners s' := by
  intro p hp p' hp' hid
  rw [eq_of_id_eq (fun x => x.id) s.projects hs.projectIds p' p (h p' hp') hp hid]

theorem Store.Next_refl (s : Store) (hs : s.WF) : s.Next s :=
  ⟨hs, sameOwners_of_subset s s hs (fun _ h => h)⟩

theorem userCreate_next (s s' : Store) (hs : s.WF) (n e pw : String) (u : User)
    (h : User.create s n e pw = .ok (u, s')) : s.Next s' := by
  unfold User.create at h
  split at h
  · cases h
  · rename_i hany
    simp only [Except.ok.injEq, Prod.mk.injEq] at h
    obtain ⟨hu, hs'⟩ := h
    subst hs' hu
    refine ⟨?_, sameOwners_of_subset _ _ hs (fun _ h => h)⟩
    constructor
    · refine nodup_append_fresh (fun u => u.id) s.users _ s.nextUserId hs.userIds
        hs.userBound ?_
      rfl
    · exact hs.projectIds
    · exact hs.taskIds
    · show (List.map (fun u : User => u.email) (s.users ++ [_])).Nodup
      rw [List.map_append, List.nodup_append]
      refine ⟨hs.emails, by simp, ?_⟩
      intro a ha hb
      simp only [List.map_cons, List.map_nil, List.mem_singleton] at hb
      obtain ⟨x, hx, hxa⟩ := List.mem_map.mp ha
      apply hany
      simp only [List.any_eq_true, beq_iff_eq]
      exact ⟨x, hx, hxa.trans hb⟩
    · refine bound_append_fresh (fun u => u.id) s.users _ s.nextUserId hs.userBound ?_
      rfl
    · exact hs.projectBound
    · exact hs.taskBound

theorem projectCreate_next (s s' : Store) (hs : s.WF) (n d st : Field String)
    (due : Field Int) (uid : Option ℕ+) (p : Project)
    (h : Project.create s n d st due uid = .ok (p, s')) : s.Next s' := by
  unfold Project.create at h
  split at h
  · split at h
    · cases h
    · simp only [Except.ok.injEq, Prod.mk.injEq] at h
      obtain ⟨hp, hs'⟩ := h
      subst hs' hp
      constructor
      · constructor
        · exact hs.userIds
        · refine nodup_append_fresh (fun p => p.id) s.projects _ s.nextProjectId
            hs.projectIds hs.projectBound ?_
          rfl
        · exact hs.taskIds
        · exact hs.emails
        · exact hs.userBound
        · refine bound_append_fresh (fun p => p.id) s.projects _ s.nextProjectId
            hs.projectBound ?_
          rfl
        · exact hs.taskBound
      · intro q hq q' hq' hid
        simp only [List.mem_append, List.mem_singleton] at hq'
        rcases hq' with hq' | hq'
        · rw [eq_of_id_eq (fun x => x.id) s.projects hs.projectIds q' q hq' hq hid]
        · exfalso
          have := hs.projectBound q hq
          rw [← hid, hq'] at this
          exact lt_irrefl _ this
  · cases h

theorem projectUpdate_next (s s' : Store) (hs : s.WF) (p p' : Project)
    (n d st : Field String) (due : Field Int)
    (h : Project.update s p n d st due = .ok (p', s')) : s.Next s' := by
  have key : ∀ r : Project,
      (if r.id = p.id then r.assign n d st due else r).id = r.id ∧
      (if r.id = p.id then r.assign n d st due else r).userId = r.userId := by
    intro r
    split <;> exact ⟨rfl, rfl⟩
  have hs' : s' = { s with projects := s.projects.map (fun r =>
      if r.id = p.id then r.assign n d st due else r) } := by
    unfold Project.update at h
    split at h
    · cases h
    · simp only [Except.ok.injEq, Prod.mk.injEq] at h
      exact h.2.symm
  subst hs'
  constructor
  · constructor
    · exact hs.userIds
    · exact nodup_map_same_key (fun p => p.id) _ s.projects (fun r => (key r).1)
        hs.projectIds
    · exact hs.taskIds
    · exact hs.emails
    · exact hs.userBound
    · intro q hq
      obtain ⟨r, hr, hrq⟩ := List.mem_map.mp hq
      rw [← hrq, (key r).1]
      exact hs.projectBound r hr
    · exact hs.taskBound
  · intro q hq q' hq' hid
    obtain ⟨r, hr, hrq⟩ := List.mem_map.mp hq'
    rw [← hrq, (key r).1] at hid
    rw [← hrq, (key r).2,
      eq_of_id_eq (fun x => x.id) s.projects hs.projectIds r q hr hq hid]

theorem cascadeTasks_sub (fk : Bool) (gone : List Project) (tasks : List Task) :
    ∃ q : Task → Bool, cascadeTasks fk gone tasks = tasks.filter q := by
  unfold cascadeTasks
  split
  · exact ⟨_, rfl⟩
  · exact ⟨fun _ => true, by simp⟩

theorem delete_next (s : Store) (hs : s.WF) (q : Project → Bool) (gone : List Project) :
    s.Next { s with projects := s.projects.filter q,
                    tasks := cascadeTasks s.foreignKeys gone s.tasks } := by
  obtain ⟨qt, hqt⟩ := cascadeTasks_sub s.foreignKeys gone s.tasks
  constructor
  · constructor
    · exact hs.userIds
    · exact nodup_filter_key (fun p => p.id) q s.projects hs.projectIds
    · show ((cascadeTasks s.foreignKeys gone s.tasks).map (fun t => t.id)).Nodup
      rw [hqt]
      exact nodup_filter_key (fun t => t.id) qt s.tasks hs.taskIds
    · exact hs.emails
    · exact hs.userBound
    · intro p hp
      exact hs.projectBound p (List.mem_of_mem_filter hp)
    · intro t ht
      have ht' : t ∈ cascadeTasks s.foreignKeys gone s.tasks := ht
      rw [hqt] at ht'
      exact hs.taskBound t (List.mem_of_mem_filter ht')
  · exact sameOwners_of_subset _ _ hs (fun _ h => List.mem_of_mem_filter h)

theorem taskCreate_next (s s' : Store) (hs : s.WF) (ti d : Field String)
    (c : Field Bool) (pr : Field String) (due : Field Int) (pid : Field Int) (t : Task)
    (h : Task.create s ti d c pr due pid = .ok (t, s')) : s.Next s' := by
  unfold Task.create at h
  split at h
  · split at h
    · cases h
    · simp only [Except.ok.injEq, Prod.mk.injEq] at h
      obtain ⟨ht, hs'⟩ := h
      subst hs' ht
      refine ⟨?_, sameOwners_of_subset _ _ hs (fun _ h => h)⟩
      constructor
      · exact hs.userIds
      · exact hs.projectIds
      · refine nodup_append_fresh (fun t => t.id) s.tasks _ s.nextTaskId hs.taskIds
          hs.taskBound ?_
        rfl
      · exact hs.emails
      · exact hs.userBound
      · exact hs.projectBound
      · refine bound_append_fresh (fun t => t.id) s.tasks _ s.nextTaskId hs.taskBound ?_
        rfl
  · cases h

theorem taskUpdate_next (s s' : Store) (hs : s.WF) (ti d : Field String)
    (c : Field Bool) (pr : Field String) (due : Field Int) (pid : Field Int)
    (id : Option Seg) (k : Nat) (h : Task.update s ti d c pr due pid id = .ok (k, s')) :
    s.Next s' := by
  cases id with
  | none => simp [Task.update] at h
  | some seg =>
    have hs' : s' = s ∨ s' = { s with tasks := s.tasks.map (fun t =>
        if seg.isId t.id then t.assign ti d c pr due pid else t) } := by
      simp only [Task.update] at h
      split_ifs at h <;> simp only [Except.ok.injEq, Prod.mk.injEq] at h
      · exact Or.inl h.2.symm
      · exact Or.inr h.2.symm
    rcases hs' with hs' | hs'
    · rw [hs']
      exact Store.Next_refl s hs
    subst hs'
    have key : ∀ t : Task,
        (if seg.isId t.id = true then t.assign ti d c pr due pid else t).id = t.id := by
      intro t
      split <;> rfl
    refine ⟨?_, sameOwners_of_subset _ _ hs (fun _ h => h)⟩
    constructor
    · exact hs.userIds
    · exact hs.projectIds
    · exact nodup_map_same_key (fun t => t.id) _ s.tasks key hs.taskIds
    · exact hs.emails
    · exact hs.userBound
    · exact hs.projectBound
    · intro t ht
      obtain ⟨r, hr, hrt⟩ := List.mem_map.mp ht
      rw [← hrt, key r]
      exact hs.taskBound r hr

theorem postRegister_leaves (bc : Bcrypt) (salt : Nat) (s : Store) (hs : s.WF) :
    Leaves (postRegister bc salt) s s.Next := by
  intro req
  unfold postRegister
  split
  · exact s.Next_refl hs
  · split
    · exact s.Next_refl hs
    · split
      · dsimp only
        split
        · rename_i hc
          exact userCreate_next s _ hs _ _ _ _ hc
        · exact s.Next_refl hs
      · exact s.Next_refl hs
    · exact s.Next_refl hs

theorem postLogin_leaves (bc : Bcrypt) (s : Store) (hs : s.WF) :
    Leaves (postLogin bc) s s.Next := by
  intro req
  unfold postLogin
  split
  · exact s.Next_refl hs
  · split
    · exact s.Next_refl hs
    · split
      · split <;> exact s.Next_refl hs
      · exact s.Next_refl hs
    · exact s.Next_refl hs

theorem requireAuth_leaves (s : Store) (P : Store → Prop) (hP : P s) :
    Leaves requireAuth s P := by
  intro req
  unfold requireAuth
  split
  · exact hP
  · rfl

theorem getProjects_leaves (s : Store) (hs : s.WF) : Leaves getProjects s s.Next := by
  intro req
  unfold getProjects
  split <;> exact s.Next_refl hs

theorem getProjectById_leaves (s : Store) (hs : s.WF) :
    Leaves getProjectById s s.Next := by
  intro req
  unfold getProjectById
  split <;> exact s.Next_refl hs

theorem postProjects_leaves (s : Store) (hs : s.WF) : Leaves postProjects s s.Next := by
  intro req
  unfold postProjects
  split
  · rename_i hc
    exact projectCreate_next s _ hs _ _ _ _ _ _ hc
  · exact s.Next_refl hs

theorem putProject_leaves (s : Store) (hs : s.WF) : Leaves putProject s s.Next := by
  intro req
  unfold putProject
  split
  · exact s.Next_refl hs
  · split
    · rename_i hc
      exact projectUpdate_next s _ hs _ _ _ _ _ _ hc
    · exact s.Next_refl hs
  · exact s.Next_refl hs

theorem deleteProject_leaves (s : Store) (hs : s.WF) : Leaves deleteProject s s.Next := by
  intro req
  unfold deleteProject
  split
  · rename_i k s' hc
    have hs' : s.Next s' := by
      unfold Project.destroy at hc
      split at hc
      · cases hc
      · split at hc
        · simp only [Except.ok.injEq, Prod.mk.injEq] at hc
          rw [← hc.2]
          exact delete_next s hs _ _
        · cases hc
    split <;> exact hs'
  · exact s.Next_refl hs

theorem deleteProjectScoped_leaves (s : Store) (hs : s.WF) :
    Leaves deleteProjectScoped s s.Next := by
  intro req
  unfold deleteProjectScoped
  split
  · exact s.Next_refl hs
  · exact delete_next s hs _ _
  · exact s.Next_refl hs

theorem getTasks_leaves (s : Store) (hs : s.WF) : Leaves getTasks s s.Next :=
  fun _ => s.Next_refl hs

theorem getTaskById_leaves (s : Store) (hs : s.WF) : Leaves getTaskById s s.Next := by
  intro req
  unfold getTaskById
  split <;> exact s.Next_refl hs

theorem postTasks_leaves (s : Store) (hs : s.WF) : Leaves postTasks s s.Next := by
  intro req
  unfold postTasks
  split
  · rename_i hc
    exact taskCreate_next s _ hs _ _ _ _ _ _ _ hc
  · exact s.Next_refl hs

theorem putTask_leaves (s : Store) (hs : s.WF) : Leaves putTask s s.Next := by
  intro req
  unfold putTask
  split
  · rename_i k s' hc
    have hs' : s.Next s' := taskUpdate_next s s' hs _ _ _ _ _ _ _ k hc
    split
    · exact hs'
    · split <;> exact hs'
  · exact s.Next_refl hs

theorem runStack_leaves (P : Store → Prop) (s : Store) (stack : List Middleware)
    (h : ∀ m ∈ stack, Leaves m s P) (req : Request) : (runStack stack req s).Leaves s P := by
  induction stack generalizing req with
  | nil => rfl
  | cons m ms ih =>
    have hm := h m (List.mem_cons_self m ms) req
    have ih' := ih (fun m' hm' => h m' (List.mem_cons_of_mem m hm'))
    rw [runStack]
    cases hout : m req s with
    | respond res s' sess =>
      rw [hout] at hm
      exact hm
    | next req' s' =>
      rw [hout] at hm
      have : s' = s := hm
      subst this
      exact ih' req'

theorem dispatch_leaves (P : Store → Prop) (s : Store) (hP : P s) (routes : List Route)
    (h : ∀ r ∈ routes, ∀ m ∈ r.stack, Leaves m s P) (req : Request) :
    P (dispatch routes req s).2.1 := by
  induction routes generalizing req with
  | nil => exact hP
  | cons r rs ih =>
    have ih' := ih (fun r' hr' => h r' (List.mem_cons_of_mem r hr'))
    rw [dispatch]
    split
    · split
      · rename_i captured _
        have hrun := runStack_leaves P s r.stack (h r (List.mem_cons_self r rs))
          { req with params_id := captured }
        cases hout : runStack r.stack { req with params_id := captured } s with
        | respond res s' sess =>
          rw [hout] at hrun
          exact hrun
        | next req' s' =>
          rw [hout] at hrun
          have : s' = s := hrun
          subst this
          exact ih' req'
      · exact ih' req
    · exact ih' req

/-- Every request leaves a well-formed store well-formed, and changes the
owner of no project. -/
theorem app_next (bc : Bcrypt) (salt : Nat) (s : Store) (hs : s.WF) (req : Request) :
    s.Next (dispatch (app bc salt) req s).2.1 := by
  apply dispatch_leaves s.Next s (s.Next_refl hs)
  intro r hr m hm
  have hauth := requireAuth_leaves s s.Next (s.Next_refl hs)
  simp only [app, List.mem_cons, List.mem_singleton, List.not_mem_nil, or_false] at hr
  rcases hr with h | h | h | h | h | h | h | h | h | h | h | h <;> subst h <;>
    simp only [List.mem_cons, List.mem_singleton, List.not_mem_nil, or_false] at hm
  · subst hm; exact postRegister_leaves bc salt s hs
  · subst hm; exact postLogin_leaves bc s hs
  · rcases hm with h | h <;> subst h
    · exact hauth
    · exact getProjects_leaves s hs
  · rcases hm with h | h <;> subst h
    · exact hauth
    · exact getProjectById_leaves s hs
  · rcases hm with h | h <;> subst h
    · exact hauth
    · exact postProjects_leaves s hs
  · rcases hm with h | h <;> subst h
    · exact hauth
    · exact putProject_leaves s hs
  · subst hm; exact deleteProject_leaves s hs
  · subst hm; exact getTasks_leaves s hs
  · subst hm; exact getTaskById_leaves s hs
  · subst hm; exact postTasks_leaves s hs
  · subst hm; exact putTask_leaves s hs
  · rcases hm with h | h <;> subst h
    · exact hauth
    · exact deleteProjectScoped_leaves s hs

theorem Store.empty_WF (fk : Bool) : (Store.empty fk).WF := by
  constructor <;> simp [Store.empty]

/-- Every database the application can be in is well-formed. -/
theorem Reachable.wf (bc : Bcrypt) (s : Store) (h : Reachable bc s) : s.WF := by
  induction h with
  | init fk => exact Store.empty_WF fk
  | step s salt req _ ih => exact (app_next bc salt s ih req).1

theorem demoStore_WF : demoStore.WF := by
  constructor <;> decide

/-! ## Updating a project -/

/-- The answer of `PUT /api/projects/:id` for the owner of the row. -/
theorem dispatch_put_own (bc : Bcrypt) (salt : Nat) (s : Store) (hs : s.WF) (req : Request)
    (a : ℕ+) (hA : req.session.userId = some a) (seg : Seg) (p : Project)
    (hp : p ∈ s.projects) (hid : seg.isId p.id = true) (hown : p.userId = a) :
    dispatch (app bc salt) (req.target .PUT (memberPath "projects" seg)) s =
      match Project.update s p req.body.name req.body.description req.body.status
          req.body.dueDate with
      | .ok (p', s') => (⟨200, .project p'⟩, s', req.session)
      | .error _ => (⟨500, .error "Failed to update project"⟩, s, req.session) := by
  have hfind := findOne_own s hs a seg p hp hid hown
  cases hc : Project.update s p req.body.name req.body.description req.body.status
      req.body.dueDate with
  | ok r =>
    apply dispatch_put_project
    rw [runStack_requireAuth _ _ _ a (by simpa [Request.target] using hA)]
    apply runStack_single
    simp [putProject, hfind, hc, Request.target]
  | error e =>
    apply dispatch_put_project
    rw [runStack_requireAuth _ _ _ a (by simpa [Request.target] using hA)]
    apply runStack_single
    simp [putProject, hfind, hc, Request.target]

/-- C10 (amended). `PUT /api/projects/:id` by the owner `a` of the project
`p`. When the body's `name` is not `null` the answer is 200 with the updated
record `p'`, and the store holds `p'` in place of `p`; when it is `null` the
answer is 500 and the store is as it was. In `p'` each of `name`,
`description`, `status`, `dueDate` has the body's value when the body
supplies one (for `dueDate`: when the value is in the range of a JavaScript
date; a value outside of it is stored as the invalid date), is `NULL` when
the body supplies `null` (nullable columns), and keeps the old value when the
body does not supply the field; `id` and `userId` are those of `p`. Every
other project is unchanged. No request to any route changes the owner of a
project. -/
theorem update_own_project (bc : Bcrypt) (salt : Nat) (s : Store) (hs : s.WF)
    (req : Request) (a : ℕ+) (hA : req.session.userId = some a) (seg : Seg) (p : Project)
    (hp : p ∈ s.projects) (hid : seg.isId p.id = true) (hown : p.userId = a)
    (p' : Project)
    (hp' : p' = p.assign req.body.name req.body.description req.body.status req.body.dueDate)
    (s' : Store)
    (hs' : s' = { s with projects := s.projects.map (fun r =>
      if r.id = p.id then
        r.assign req.body.name req.body.description req.body.status req.body.dueDate
      else r) }) :
    (req.body.name ≠ .null →
      dispatch (app bc salt) (req.target .PUT (memberPath "projects" seg)) s =
        (⟨200, .project p'⟩, s', req.session)) ∧
    (req.body.name = .null →
      dispatch (app bc salt) (req.target .PUT (memberPath "projects" seg)) s =
        (⟨500, .error "Failed to update project"⟩, s, req.session)) ∧
    (p'.id = p.id ∧ p'.userId = p.userId) ∧
    ((∀ v, req.body.name = .val v → p'.name = v) ∧
      (req.body.name = .undefined → p'.name = p.name)) ∧
    ((∀ v, req.body.description = .val v → p'.description = some v) ∧
      (req.body.description = .null → p'.description = none) ∧
      (req.body.description = .undefined → p'.description = p.description)) ∧
    ((∀ v, req.body.status = .val v → p'.status = some v) ∧
      (req.body.status = .null → p'.status = none) ∧
      (req.body.status = .undefined → p'.status = p.status)) ∧
    ((∀ v, req.body.dueDate = .val v → -8640000000000000 ≤ v → v ≤ 8640000000000000 →
        p'.dueDate = some (.time v)) ∧
      (∀ v, req.body.dueDate = .val v → (v < -8640000000000000 ∨ 8640000000000000 < v) →
        p'.dueDate = some .invalid) ∧
      (req.body.dueDate = .null → p'.dueDate = none) ∧
      (req.body.dueDate = .undefined → p'.dueDate = p.dueDate)) ∧
    (p' ∈ s'.projects ∧ (∀ r ∈ s'.projects, r.id = p.id → r = p') ∧
      (∀ r ∈ s.projects, r.id ≠ p.id → r ∈ s'.projects) ∧
      (∀ r ∈ s'.projects, r.id ≠ p.id → r ∈ s.projects) ∧
      s'.users = s.users ∧ s'.tasks = s.tasks) ∧
    (∀ anyReq : Request, s.sameOwners (dispatch (app bc salt) anyReq s).2.1) := by
  have hput := dispatch_put_own bc salt s hs req a hA seg p hp hid hown
  subst hp' hs'
  refine ⟨?_, ?_, ⟨rfl, rfl⟩, ⟨?_, ?_⟩, ⟨?_, ?_, ?_⟩, ⟨?_, ?_, ?_⟩, ⟨?_, ?_, ?_, ?_⟩,
    ⟨?_, ?_, ?_, ?_, rfl, rfl⟩, fun anyReq => (app_next bc salt s hs anyReq).2⟩
  · intro hn
    rw [hput]
    cases hname : req.body.name with
    | null => exact absurd hname hn
    | undefined => simp [Project.update]
    | val v => simp [Project.update]
  · intro hn
    rw [hput]
    simp [Project.update, hn]
  · intro v h; simp [Project.assign, Field.assignReq, h]
  · intro h; simp [Project.assign, Field.assignReq, h]
  · intro v h; simp [Project.assign, Field.assign, h]
  · intro h; simp [Project.assign, Field.assign, h]
  · intro h; simp [Project.assign, Field.assign, h]
  · intro v h; simp [Project.assign, Field.assign, h]
  · intro h; simp [Project.assign, Field.assign, h]
  · intro h; simp [Project.assign, Field.assign, h]
  · intro v h h1 h2
    simp [Project.assign, Field.assignDate, DateValue.ofJson, h, h1, h2]
  · intro v h hv
    have hno : ¬(-8640000000000000 ≤ v ∧ v ≤ 8640000000000000) := by omega
    simp only [Project.assign, Field.assignDate, DateValue.ofJson, h, if_neg hno]
  · intro h; simp [Project.assign, Field.assignDate, h]
  · intro h; simp [Project.assign, Field.assignDate, h]
  · simp only [List.mem_map]
    exact ⟨p, hp, by simp⟩
  · intro r hr hrid
    simp only [List.mem_map] at hr
    obtain ⟨r0, hr0, hr0r⟩ := hr
    by_cases h0 : r0.id = p.id
    · rw [if_pos h0] at hr0r
      rw [← hr0r, eq_of_id_eq (fun x => x.id) s.projects hs.projectIds r0 p hr0 hp h0]
    · rw [if_neg h0] at hr0r
      rw [← hr0r] at hrid
      exact absurd hrid h0
  · intro r hr hrid
    simp only [List.mem_map]
    exact ⟨r, hr, by simp [hrid]⟩
  · intro r hr hrid
    simp only [List.mem_map] at hr
    obtain ⟨r0, hr0, hr0r⟩ := hr
    by_cases h0 : r0.id = p.id
    · rw [if_pos h0] at hr0r
      rw [← hr0r] at hrid
      exact absurd h0 hrid
    · rw [if_neg h0] at hr0r
      rw [← hr0r]
      exact hr0

/-! ## The theorems at the sample database -/

/-- C1 at the sample database: `alice` asks for the project of `bob` (id 2) and
for the id 7, which no project has. -/
theorem foreign_project_as_missing_witness :
    demoStore.WF ∧ projectOfBob ∈ demoStore.projects ∧ projectOfBob.userId ≠ alice.id ∧
    (dispatch (app demoBcrypt 0)
        ((requestOf (some 1) {}).target .GET (memberPath "projects" (.num 2))) demoStore =
      (⟨404, .error "Project not found or access denied"⟩, demoStore, ⟨some 1⟩) ∧
    dispatch (app demoBcrypt 0)
        ((requestOf (some 1) {}).target .GET (memberPath "projects" (.num 7))) demoStore =
      (⟨404, .error "Project not found or access denied"⟩, demoStore, ⟨some 1⟩) ∧
    dispatch (app demoBcrypt 0)
        ((requestOf (some 1) {}).target .PUT (memberPath "projects" (.num 2))) demoStore =
      (⟨404, .error "Project not found or access denied"⟩, demoStore, ⟨some 1⟩) ∧
    dispatch (app demoBcrypt 0)
        ((requestOf (some 1) {}).target .PUT (memberPath "projects" (.num 7))) demoStore =
      (⟨404, .error "Project not found or access denied"⟩, demoStore, ⟨some 1⟩)) :=
  ⟨demoStore_WF, by decide, by decide,
    foreign_project_as_missing demoBcrypt 0 demoStore demoStore_WF (requestOf (some 1) {}) 1
      rfl (.num 2) (.num 7) projectOfBob (by decide) (by decide) (by decide) (by decide)
      (by decide)⟩

/-- C2 at the sample database: `alice` creates a project with a body that
names `bob` (2) as `userId`; the answer is 201 and the stored owner is 1. -/
theorem create_project_owner_witness :
    (dispatch (app demoBcrypt 0)
      ((requestOf (some 1) { name := .val "P3", userId := .val 2 }).target .POST
        (collectionPath "projects")) demoStore).1.status = 201 ∧
    ∃ p : Project,
      (dispatch (app demoBcrypt 0)
        ((requestOf (some 1) { name := .val "P3", userId := .val 2 }).target .POST
          (collectionPath "projects")) demoStore).1.body = .project p ∧
      p.userId = 1 ∧ p.id = 3 ∧
      (dispatch (app demoBcrypt 0)
        ((requestOf (some 1) { name := .val "P3", userId := .val 2 }).target .POST
          (collectionPath "projects")) demoStore).2.1.projects =
        [projectOfAlice, projectOfBob, p] :=
  have h := create_project_owner demoBcrypt 0 demoStore
    (requestOf (some 1) { name := .val "P3", userId := .val 2 }) 1 rfl
  have h201 := h.2 "P3" rfl (Or.inr ⟨alice, by decide, rfl⟩)
  ⟨h201, by
    obtain ⟨p, hb, hu, hi, hl, _⟩ := h.1 _ _ _ rfl h201
    exact ⟨p, hb, hu, hi, hl⟩⟩

/-- C5, as stated, fails. With the truthy password 12345, which is not a
string, the login of `alice` (a user has the e-mail) is answered 500 and a
login with an e-mail nobody has is answered 401; and a login with an e-mail
that holds a NUL character, which nobody has, is answered 500, not 401. -/
theorem login_outcomes_counterexample :
    alice ∈ demoStore.users ∧ alice.email = "a@x.com" ∧
    (∀ u ∈ demoStore.users, u.email ≠ "nobody@x.com") ∧
    (∀ u ∈ demoStore.users, u.email ≠ "a\x00b") ∧
    dispatch (app demoBcrypt 0)
      ((requestOf none { email := .val "a@x.com", password := .val (.num 12345) }).target
        .POST (collectionPath "login")) demoStore =
      (⟨500, .error "Failed to log in"⟩, demoStore, ⟨none⟩) ∧
    dispatch (app demoBcrypt 0)
      ((requestOf none { email := .val "nobody@x.com", password := .val (.num 12345) }).target
        .POST (collectionPath "login")) demoStore =
      (⟨401, .error "Invalid email or password"⟩, demoStore, ⟨none⟩) ∧
    dispatch (app demoBcrypt 0)
      ((requestOf none { email := .val "a\x00b", password := .val (.str "pw123") }).target
        .POST (collectionPath "login")) demoStore =
      (⟨500, .error "Failed to log in"⟩, demoStore, ⟨none⟩) := by
  refine ⟨by decide, rfl, by decide, by decide, ?_, ?_, ?_⟩
  · decide
  · decide
  · decide

/-- C5 (amended) at the sample database: a login with an e-mail nobody has, a
login of `alice` with a wrong password, a login of `alice` with her password,
and a login with an e-mail that holds a NUL character. -/
theorem login_outcomes_witness :
    dispatch (app demoBcrypt 0)
      ((requestOf none { email := .val "nobody@x.com", password := .val (.str "pw123") }).target
        .POST (collectionPath "login")) demoStore =
      (⟨401, .error "Invalid email or password"⟩, demoStore, ⟨none⟩) ∧
    dispatch (app demoBcrypt 0)
      ((requestOf none { email := .val "a@x.com", password := .val (.str "wrong") }).target
        .POST (collectionPath "login")) demoStore =
      (⟨401, .error "Invalid email or password"⟩, demoStore, ⟨none⟩) ∧
    dispatch (app demoBcrypt 0)
      ((requestOf none { email := .val "a@x.com", password := .val (.str "pw123") }).target
        .POST (collectionPath "login")) demoStore =
      (⟨200, .message "Login successful"⟩, demoStore, ⟨some 1⟩) ∧
    dispatch (app demoBcrypt 0)
      ((requestOf none { email := .val "a\x00b", password := .val (.str "pw123") }).target
        .POST (collectionPath "login")) demoStore =
      (⟨500, .error "Failed to log in"⟩, demoStore, ⟨none⟩) :=
  ⟨(login_outcomes demoBcrypt 0 demoStore demoStore_WF
      (requestOf none { email := .val "nobody@x.com", password := .val (.str "pw123") })
      "nobody@x.com" "pw123" rfl rfl (by decide) (by decide)).1 (by decide) (by decide),
   (login_outcomes demoBcrypt 0 demoStore demoStore_WF
      (requestOf none { email := .val "a@x.com", password := .val (.str "wrong") })
      "a@x.com" "wrong" rfl rfl (by decide) (by decide)).2.1 (by decide) alice (by decide)
      rfl (by decide),
   (login_outcomes demoBcrypt 0 demoStore demoStore_WF
      (requestOf none { email := .val "a@x.com", password := .val (.str "pw123") })
      "a@x.com" "pw123" rfl rfl (by decide) (by decide)).2.2.1 (by decide) alice (by decide)
      rfl (by decide),
   (login_outcomes demoBcrypt 0 demoStore demoStore_WF
      (requestOf none { email := .val "a\x00b", password := .val (.str "pw123") })
      "a\x00b" "pw123" rfl rfl (by decide) (by decide)).2.2.2 (by decide)⟩

/-- C6, as stated, fails: `alice` is registered with `a@x.com`; a second
registration with that e-mail and an empty username, and one with no
username, are answered `All fields are required`, not `Email is already
registered`. -/
theorem register_existing_email_counterexample :
    alice ∈ demoStore.users ∧ alice.email = "a@x.com" ∧
    (dispatch (app demoBcrypt 0)
      ((requestOf none
          { username := .val "", email := .val "a@x.com", password := .val (.str "pw") }).target
        .POST (collectionPath "register")) demoStore).1 =
      ⟨400, .error "All fields are required"⟩ ∧
    (dispatch (app demoBcrypt 0)
      ((requestOf none { email := .val "a@x.com", password := .val (.str "pw") }).target .POST
        (collectionPath "register")) demoStore).1 =
      ⟨400, .error "All fields are required"⟩ ∧
    (⟨400, .error "All fields are required"⟩ : Response) ≠
      ⟨400, .error "Email is already registered"⟩ := by
  refine ⟨by decide, rfl, ?_, ?_, by decide⟩
  · decide
  · decide

/-- C6 (amended) at the sample database: a second registration with the
e-mail of `alice`, another username and another password. -/
theorem register_existing_email_witness :
    alice ∈ demoStore.users ∧
    dispatch (app demoBcrypt 0)
      ((requestOf none
          { username := .val "carol", email := .val "a@x.com",
            password := .val (.str "other") }).target
        .POST (collectionPath "register")) demoStore =
      (⟨400, .error "Email is already registered"⟩, demoStore, ⟨none⟩) :=
  ⟨by decide,
    (register_existing_email demoBcrypt 0 demoStore
      (requestOf none
        { username := .val "carol", email := .val "a@x.com", password := .val (.str "other") })
      alice (by decide) rfl).trans (by decide)⟩

/-- C7, as stated, fails: the three fields are present and no user has the
e-mail, yet the registration is answered 500 and nothing is stored, when the
e-mail holds a NUL character and when the password is the number 12345. -/
theorem register_outcomes_counterexample :
    (∀ u ∈ demoStore.users, u.email ≠ "c\x00d") ∧
    (∀ u ∈ demoStore.users, u.email ≠ "c@x.com") ∧
    dispatch (app demoBcrypt 0)
      ((requestOf none
          { username := .val "carol", email := .val "c\x00d",
            password := .val (.str "s3cret") }).target
        .POST (collectionPath "register")) demoStore =
      (⟨500, .error "Failed to register user"⟩, demoStore, ⟨none⟩) ∧
    dispatch (app demoBcrypt 0)
      ((requestOf none
          { username := .val "carol", email := .val "c@x.com",
            password := .val (.num 12345) }).target
        .POST (collectionPath "register")) demoStore =
      (⟨500, .error "Failed to register user"⟩, demoStore, ⟨none⟩) := by
  refine ⟨by decide, by decide, ?_, ?_⟩
  · decide
  · decide

/-- C8 at the sample database: the list of `alice` holds her project and not
the project of `bob`. -/
theorem list_projects_owned_witness :
    dispatch (app demoBcrypt 0)
      ((requestOf (some 1) {}).target .GET (collectionPath "projects")) demoStore =
      (⟨200, .projects [projectOfAlice]⟩, demoStore, ⟨some 1⟩) :=
  (list_projects_owned demoBcrypt 0 demoStore (requestOf (some 1) {}) 1 rfl).1

/-- C10, as stated, fails: `alice` updates her project with a body that
supplies no field, and the answer is 200 with the old record, whose name and
description are kept; with a body whose name is `null` the answer is 500; and
with a due date beyond the range of a JavaScript date the answer is 200 and
the stored due date is the invalid date, not the body's value. -/
theorem update_own_project_counterexample :
    projectOfAlice ∈ demoStore.projects ∧ projectOfAlice.userId = alice.id ∧
    projectOfAlice.description = some "first" ∧
    dispatch (app demoBcrypt 0)
      ((requestOf (some 1) {}).target .PUT (memberPath "projects" (.num 1))) demoStore =
      (⟨200, .project projectOfAlice⟩, demoStore, ⟨some 1⟩) ∧
    dispatch (app demoBcrypt 0)
      ((requestOf (some 1) { name := .null }).target .PUT
        (memberPath "projects" (.num 1))) demoStore =
      (⟨500, .error "Failed to update project"⟩, demoStore, ⟨some 1⟩) ∧
    dispatch (app demoBcrypt 0)
      ((requestOf (some 1) { dueDate := .val 8640000000000001 }).target .PUT
        (memberPath "projects" (.num 1))) demoStore =
      (⟨200, .project { projectOfAlice with dueDate := some .invalid }⟩,
       { demoStore with
         projects := [{ projectOfAlice with dueDate := some .invalid }, projectOfBob] },
       ⟨some 1⟩) := by
  refine ⟨by decide, rfl, rfl, ?_, ?_, ?_⟩
  · decide
  · decide
  · decide

/-- C10 (amended) at the sample database: `alice` renames her project, sets
its status to `null` and gives it a due date; the description, which the
body does not supply, is kept, and the project of `bob` is unchanged. -/
theorem update_own_project_witness :
    demoStore.WF ∧ projectOfAlice ∈ demoStore.projects ∧
    dispatch (app demoBcrypt 0)
      ((requestOf (some 1)
          { name := .val "New", status := .null, dueDate := .val 1800000000000 }).target .PUT
        (memberPath "projects" (.num 1))) demoStore =
      (⟨200, .project ⟨1, "New", some "first", none, some (.time 1800000000000), 1⟩⟩,
       { demoStore with
         projects := [⟨1, "New", some "first", none, some (.time 1800000000000), 1⟩,
           projectOfBob] },
       ⟨some 1⟩) :=
  ⟨demoStore_WF, by decide,
    (update_own_project demoBcrypt 0 demoStore demoStore_WF
      (requestOf (some 1)
        { name := .val "New", status := .null, dueDate := .val 1800000000000 })
      1 rfl (.num 1) projectOfAlice (by decide) (by decide) rfl
      ⟨1, "New", some "first", none, some (.time 1800000000000), 1⟩ (by decide)
      { demoStore with
        projects := [⟨1, "New", some "first", none, some (.time 1800000000000), 1⟩,
          projectOfBob] }
      (by decide)).1 (by decide)⟩

/-- C3 at the sample database: a client with no session, and `bob`, delete
the project of `alice`; the answer is 200, the project is gone and so is its
task. -/
theorem delete_project_first_handler_witness :
    dispatch (app demoBcrypt 0)
      ((requestOf none {}).target .DELETE (memberPath "projects" (.num 1))) demoStore =
      (⟨200, .message "Project deleted successfully"⟩,
       { demoStore with projects := [projectOfBob], tasks := [] }, ⟨none⟩) ∧
    dispatch (app demoBcrypt 0)
      ((requestOf (some 2) {}).target .DELETE (memberPath "projects" (.num 1))) demoStore =
      (⟨200, .message "Project deleted successfully"⟩,
       { demoStore with projects := [projectOfBob], tasks := [] }, ⟨some 2⟩) :=
  ⟨(delete_project_first_handler demoBcrypt 0 demoStore (requestOf none {}) (.num 1)).2.2.1.trans
      (by decide),
   (delete_project_first_handler demoBcrypt 0 demoStore (requestOf (some 2) {})
      (.num 1)).2.2.1.trans (by decide)⟩

/-- C4 at two requests: one without a session, one with the session of
`alice`, in front of the handler of `GET /api/projects`. -/
theorem requireAuth_gate_witness :
    runStack [requireAuth, getProjects] (requestOf none {}) demoStore =
      .respond ⟨401, .error "You must be logged in to access this resource"⟩ demoStore
        ⟨none⟩ ∧
    requireAuth (requestOf (some 1) {}) demoStore =
      .next { requestOf (some 1) {} with userId := some 1 } demoStore :=
  ⟨((requireAuth_gate (requestOf none {}) demoStore [getProjects]).1 rfl).2,
   ((requireAuth_gate (requestOf (some 1) {}) demoStore [getProjects]).2.1 1 rfl).1⟩

/-- C7 (amended) at the sample database: a registration without a password,
and the registration of `carol`, whose stored password is the hash. -/
theorem register_outcomes_witness :
    dispatch (app demoBcrypt 0)
      ((requestOf none { username := .val "carol", email := .val "c@x.com" }).target .POST
        (collectionPath "register")) demoStore =
      (⟨400, .error "All fields are required"⟩, demoStore, ⟨none⟩) ∧
    dispatch (app demoBcrypt 0)
      ((requestOf none
          { username := .val "carol", email := .val "c@x.com",
            password := .val (.str "s3cret") }).target
        .POST (collectionPath "register")) demoStore =
      (⟨201, .registered "User registered successfully" 3⟩,
       { demoStore with users := [alice, bob, ⟨3, "carol", "c@x.com", "$2a$10$s3cret"⟩],
                        nextUserId := 4 },
       ⟨none⟩) :=
  ⟨(register_outcomes demoBcrypt 0 demoStore
      (requestOf none { username := .val "carol", email := .val "c@x.com" })).1
      (Or.inr (Or.inr rfl)),
   ((register_outcomes demoBcrypt 0 demoStore
      (requestOf none
        { username := .val "carol", email := .val "c@x.com",
          password := .val (.str "s3cret") })).2.1
      "carol" "c@x.com" "s3cret" rfl rfl rfl (by decide) (by decide) (by decide)
      (by decide) (by decide)).trans (by decide)⟩

/-- C9 at the sample database: a task is created by a client with no session
and by `bob`, for the project of `alice`; the answers are the same 201 and
so are the stores. -/
theorem task_routes_ignore_session_witness :
    (dispatch (app demoBcrypt 0)
      (Request.target
        { requestOf none { title := .val "T2", projectId := .val 1 } with session := ⟨none⟩ }
        .POST (collectionPath "tasks")) demoStore).1 =
      ⟨201, .task ⟨2, "T2", none, some false, some "medium", none, 1⟩⟩ ∧
    (dispatch (app demoBcrypt 0)
      (Request.target
        { requestOf none { title := .val "T2", projectId := .val 1 } with session := ⟨none⟩ }
        .POST (collectionPath "tasks")) demoStore).1 =
    (dispatch (app demoBcrypt 0)
      (Request.target
        { requestOf none { title := .val "T2", projectId := .val 1 } with
          session := ⟨some 2⟩ }
        .POST (collectionPath "tasks")) demoStore).1 ∧
    (dispatch (app demoBcrypt 0)
      (Request.target
        { requestOf none { title := .val "T2", projectId := .val 1 } with session := ⟨none⟩ }
        .POST (collectionPath "tasks")) demoStore).2.1 =
    (dispatch (app demoBcrypt 0)
      (Request.target
        { requestOf none { title := .val "T2", projectId := .val 1 } with
          session := ⟨some 2⟩ }
        .POST (collectionPath "tasks")) demoStore).2.1 := by
  obtain ⟨res, s', h⟩ := (task_routes_ignore_session demoBcrypt 0 demoStore
    (requestOf none { title := .val "T2", projectId := .val 1 }) (.num 1)).2.2.1
  refine ⟨by decide, ?_, ?_⟩
  · rw [h ⟨none⟩, h ⟨some 2⟩]
  · rw [h ⟨none⟩, h ⟨some 2⟩]

end TaskApi
